import Mathlib

/-!
Verification of the Project Acorn 8086 CPU emulator core.

This file gives a shallow embedding, in Lean 4, of the parts of the
emulator relevant to the checked properties: the memory access layer
(cpu_read_byte, cpu_read_word, cpu_write_byte, cpu_write_word), the
segmented addressing unit (cpu_calc_addr, calc_ea, decode_modrm), the
flag helpers, and the instruction handlers push_word, pop_word, pushf,
popf, iret, lahf, daa, salc, lea, lds, les, mov_seg, mov_mem, movs,
grp3 and shift_rotate_op from opcode.h, plus the opcode dispatch table
of do_op.

Embedding conventions:
- C unsigned machine integers become Nat.  A store into a uint8_t or
  uint16_t location is written with an explicit truncation (percent 256,
  percent 65536); uint32 wraparound where it can occur is written with
  an explicit percent 4294967296.  Bit masks with an all-ones low mask
  (x & 0xFF, x & 0xFFFF, x & 0xFFFFF) are written as the equal modulus
  where this helps arithmetic, and noted at the definition.
- C signed arithmetic (IMUL/IDIV) uses Int with Int.tdiv and Int.tmod,
  which truncate toward zero exactly as C division does.
- A C function that mutates the X86Cpu becomes a function
  X86Cpu -> X86Cpu; a C function returning a value and mutating the
  state returns a pair.  Helpers that only touch cpu->flags become
  functions of the flags word.
- The or of disjoint byte fields (low | (high << 8)) is written as
  low + 256 * high; stored bytes are below 256, so the two agree.
-/

namespace Acorn

/-- Memory size constant RAM_SIZE = 0x100000 from intel8086.h. -/
def RAM_SIZE : Nat := 0x100000

/-- Flag bit masks from opcode.h. -/
def FLAGS_CF : Nat := 0x001

def FLAGS_PF : Nat := 0x004

def FLAGS_AF : Nat := 0x010

def FLAGS_ZF : Nat := 0x040

def FLAGS_SF : Nat := 0x080

def FLAGS_TF : Nat := 0x100

def FLAGS_INT : Nat := 0x200

def FLAGS_DF : Nat := 0x400

def FLAGS_OV : Nat := 0x800

/-- The X86Cpu state from intel8086.h.  The union ShortReg is modelled
as one 16-bit word per register (low byte = value mod 256, high byte =
value / 256), as the 8086 is little-endian.  The C field rep_prefix is
named rep_pfx here.  The field cycles is omitted: no modelled function
reads or writes it. -/
structure X86Cpu where
  ram : Nat → Nat
  ax : Nat
  bx : Nat
  cx : Nat
  dx : Nat
  sp : Nat
  bp : Nat
  si : Nat
  di : Nat
  ip : Nat
  flags : Nat
  cs : Nat
  ds : Nat
  ss : Nat
  es : Nat
  seg_override : Nat
  rep_pfx : Nat
  running : Nat

/-- Well-formedness: every field respects its C storage type
(uint8_t bytes in ram, uint16_t registers). -/
def Wf (s : X86Cpu) : Prop :=
  (∀ a, s.ram a < 256) ∧ s.ax < 65536 ∧ s.bx < 65536 ∧ s.cx < 65536 ∧
  s.dx < 65536 ∧ s.sp < 65536 ∧ s.bp < 65536 ∧ s.si < 65536 ∧
  s.di < 65536 ∧ s.ip < 65536 ∧ s.flags < 65536 ∧ s.cs < 65536 ∧
  s.ds < 65536 ∧ s.ss < 65536 ∧ s.es < 65536

/-- Write the low byte of a 16-bit register word, preserving the high
byte (a store through the ShortReg union member l). -/
def withL (x v : Nat) : Nat := 256 * (x / 256 % 256) + v % 256

/-- Write the high byte of a 16-bit register word, preserving the low
byte (a store through the ShortReg union member h). -/
def withH (x v : Nat) : Nat := 256 * (v % 256) + x % 256

/-- set_flag from opcode.h: flags |= flag. -/
def set_flag (fl m : Nat) : Nat := fl ||| m

/-- clear_flag from opcode.h: flags &= ~flag, where the complement of
the 16-bit mask within uint16_t is 65535 xor m. -/
def clear_flag (fl m : Nat) : Nat := fl &&& (65535 ^^^ m)

/-- cpu_calc_addr from intel8086.h:
((segment << 4) + offset) & 0xFFFFF, written with * 16 and mod 2^20. -/
def cpu_calc_addr (seg off : Nat) : Nat := (seg * 16 + off) % 0x100000

/-- cpu_read_byte from the memory layer: out-of-bounds reads return
0xFF after a warning; in-bounds reads return the byte. -/
def cpu_read_byte (s : X86Cpu) (addr : Nat) : Nat :=
  if RAM_SIZE ≤ addr then 0xFF else s.ram addr

/-- cpu_read_word: if addr + 1 is out of bounds the read fails with
0xFFFF; otherwise little-endian ram[addr] | (ram[addr+1] << 8),
written as an addition of the disjoint byte fields. -/
def cpu_read_word (s : X86Cpu) (addr : Nat) : Nat :=
  if RAM_SIZE ≤ addr + 1 then 0xFFFF
  else s.ram addr + 256 * s.ram (addr + 1)

/-- cpu_write_byte: out-of-bounds writes are discarded; in-bounds
writes store value truncated to uint8_t. -/
def cpu_write_byte (s : X86Cpu) (addr v : Nat) : X86Cpu :=
  if RAM_SIZE ≤ addr then s
  else { s with ram := fun a => if a = addr then v % 256 else s.ram a }

/-- cpu_write_word: if addr + 1 is out of bounds the whole write is
discarded; otherwise ram[addr] = value & 0xFF and
ram[addr+1] = (value >> 8) & 0xFF. -/
def cpu_write_word (s : X86Cpu) (addr v : Nat) : X86Cpu :=
  if RAM_SIZE ≤ addr + 1 then s
  else { s with ram := fun a =>
          if a = addr then v % 256
          else if a = addr + 1 then v / 256 % 256
          else s.ram a }

/-- cpu_get_pc from intel8086.h. -/
def cpu_get_pc (s : X86Cpu) : Nat := cpu_calc_addr s.cs s.ip

/-- get_reg8_ptr as a read: the 8 byte-register slots
AL CL DL BL AH CH DH BH. -/
def get_reg8 (s : X86Cpu) (r : Nat) : Nat :=
  if r == 0 then s.ax % 256
  else if r == 1 then s.cx % 256
  else if r == 2 then s.dx % 256
  else if r == 3 then s.bx % 256
  else if r == 4 then s.ax / 256 % 256
  else if r == 5 then s.cx / 256 % 256
  else if r == 6 then s.dx / 256 % 256
  else s.bx / 256 % 256

/-- get_reg8_ptr as a write: store v into byte-register slot r. -/
def set_reg8 (s : X86Cpu) (r v : Nat) : X86Cpu :=
  if r == 0 then { s with ax := withL s.ax v }
  else if r == 1 then { s with cx := withL s.cx v }
  else if r == 2 then { s with dx := withL s.dx v }
  else if r == 3 then { s with bx := withL s.bx v }
  else if r == 4 then { s with ax := withH s.ax v }
  else if r == 5 then { s with cx := withH s.cx v }
  else if r == 6 then { s with dx := withH s.dx v }
  else { s with bx := withH s.bx v }

/-- get_reg16_ptr as a read: AX CX DX BX SP BP SI DI. -/
def get_reg16 (s : X86Cpu) (r : Nat) : Nat :=
  if r == 0 then s.ax
  else if r == 1 then s.cx
  else if r == 2 then s.dx
  else if r == 3 then s.bx
  else if r == 4 then s.sp
  else if r == 5 then s.bp
  else if r == 6 then s.si
  else s.di

/-- get_reg16_ptr as a write: the stored value is truncated to
uint16_t. -/
def set_reg16 (s : X86Cpu) (r v : Nat) : X86Cpu :=
  if r == 0 then { s with ax := v % 65536 }
  else if r == 1 then { s with cx := v % 65536 }
  else if r == 2 then { s with dx := v % 65536 }
  else if r == 3 then { s with bx := v % 65536 }
  else if r == 4 then { s with sp := v % 65536 }
  else if r == 5 then { s with bp := v % 65536 }
  else if r == 6 then { s with si := v % 65536 }
  else { s with di := v % 65536 }

/-- The ModRMAddressMode enum from opcode.h. -/
inductive ModRMAddressMode where
  | indirect
  | indirectDisp8
  | indirectDisp16
  | register
deriving DecidableEq

/-- The decoded ModR/M operand structure from opcode.h. -/
structure ModRM where
  mode : ModRMAddressMode
  reg : Nat
  rm : Nat
  is_memory : Bool
  ea : Nat
  displacement : Nat
  has_displacement : Bool
  length : Nat
deriving DecidableEq

/-- The segment selected by an active override prefix, as computed by
the ternary chains in calc_ea (1 = ES, 2 = CS, 3 = SS, other = DS). -/
def seg_override_value (s : X86Cpu) : Nat :=
  if s.seg_override == 1 then s.es
  else if s.seg_override == 2 then s.cs
  else if s.seg_override == 3 then s.ss
  else s.ds

/-- calc_ea from opcode.h.  md and rm are the mod and r/m fields, disp
the displacement.  Register mode (md = 3) returns 0.  Direct
addressing (md = 0, rm = 6) uses disp as the offset.  Otherwise the
base is taken from the register sum table; a mod = 1 displacement is
sign-extended from its low 8 bits and added with uint32 wraparound
(adding a negative int8 to a uint32 adds its two's complement
0xFFFFFF00 + d8 modulo 2^32); the effective offset is masked to 16
bits; BP-based forms default to SS; an active segment override
replaces the default segment. -/
def calc_ea (s : X86Cpu) (md rm disp : Nat) : Nat :=
  if md == 3 then 0
  else if md == 0 && rm == 6 then
    (if s.seg_override ≠ 0 then
      cpu_calc_addr (seg_override_value s) (disp % 65536)
    else cpu_calc_addr s.ds (disp % 65536))
  else
    let base :=
      if rm == 0 then s.bx + s.si
      else if rm == 1 then s.bx + s.di
      else if rm == 2 then s.bp + s.si
      else if rm == 3 then s.bp + s.di
      else if rm == 4 then s.si
      else if rm == 5 then s.di
      else if rm == 6 then s.bp
      else s.bx
    let dseg :=
      if rm == 2 || rm == 3 || rm == 6 then s.ss else s.ds
    let ea :=
      if md == 1 then
        (if disp % 256 < 0x80 then (base + disp % 256) % 4294967296
         else (base + disp % 256 + 0xFFFFFF00) % 4294967296)
      else if md == 2 then base + disp
      else base
    let ea := ea % 65536
    if s.seg_override ≠ 0 then cpu_calc_addr (seg_override_value s) ea
    else cpu_calc_addr dseg ea

/-- decode_modrm from opcode.h.  addr is the address of the ModR/M
byte; the field extractions mirror the MODRM_MOD, MODRM_REG and
MODRM_RM macros. -/
def decode_modrm (s : X86Cpu) (addr : Nat) : ModRM :=
  let b := cpu_read_byte s addr
  let reg := (b >>> 3) &&& 0x7
  let rm := b &&& 0x7
  let md := (b >>> 6) &&& 0x3
  if md == 3 then
    { mode := .register, reg := reg, rm := rm, is_memory := false,
      ea := 0, displacement := 0, has_displacement := false, length := 1 }
  else if md == 0 then
    if rm == 6 then
      let disp := cpu_read_word s (addr + 1)
      { mode := .indirect, reg := reg, rm := rm, is_memory := true,
        ea := calc_ea s 0 rm disp, displacement := disp,
        has_displacement := true, length := 3 }
    else
      { mode := .indirect, reg := reg, rm := rm, is_memory := true,
        ea := calc_ea s 0 rm 0, displacement := 0,
        has_displacement := false, length := 1 }
  else if md == 1 then
    let disp := cpu_read_byte s (addr + 1)
    { mode := .indirectDisp8, reg := reg, rm := rm, is_memory := true,
      ea := calc_ea s 1 rm disp, displacement := disp,
      has_displacement := true, length := 2 }
  else
    let disp := cpu_read_word s (addr + 1)
    { mode := .indirectDisp16, reg := reg, rm := rm, is_memory := true,
      ea := calc_ea s 2 rm disp, displacement := disp,
      has_displacement := true, length := 3 }

/-- The xor fold inside chk_parity from opcode.h: take the low byte
and fold it by xor with shifts of 4, 2 and 1; the low bit of the fold
is the parity of the byte. -/
def parity_fold (data : Nat) : Nat :=
  let b0 := data &&& 0xFF
  let b1 := b0 ^^^ (b0 >>> 4)
  let b2 := b1 ^^^ (b1 >>> 2)
  b2 ^^^ (b2 >>> 1)

/-- chk_parity from opcode.h as a flags-word transformer: PF is set
when the fold has an even number of 1 bits (fold bit 0 clear). -/
def chk_parity (fl data : Nat) : Nat :=
  if parity_fold data &&& 0x1 ≠ 0 then clear_flag fl FLAGS_PF
  else set_flag fl FLAGS_PF

/-- chk_zero from opcode.h as a flags-word transformer. -/
def chk_zero (fl data : Nat) : Nat :=
  if data == 0 then set_flag fl FLAGS_ZF else clear_flag fl FLAGS_ZF

/-- chk_sign from opcode.h as a flags-word transformer: sign bit 7 for
bytes, 15 for words. -/
def chk_sign (fl data : Nat) (is_byte : Bool) : Nat :=
  if is_byte then
    (if data &&& 0x80 ≠ 0 then set_flag fl FLAGS_SF else clear_flag fl FLAGS_SF)
  else
    (if data &&& 0x8000 ≠ 0 then set_flag fl FLAGS_SF else clear_flag fl FLAGS_SF)

/-- update_flags_szp from opcode.h: ZF from the width-masked result,
then SF, then PF. -/
def update_flags_szp (fl result : Nat) (is_byte : Bool) : Nat :=
  let fl := chk_zero fl (if is_byte then result &&& 0xFF else result)
  let fl := chk_sign fl result is_byte
  chk_parity fl result

/-- push_word from opcode.h: SP decrements by 2 with uint16_t
wraparound (written + 65534 mod 65536), then the word is written at
SS:SP. -/
def push_word (s : X86Cpu) (v : Nat) : X86Cpu :=
  let s1 := { s with sp := (s.sp + 65534) % 65536 }
  cpu_write_word s1 (cpu_calc_addr s1.ss s1.sp) v

/-- pop_word from opcode.h: read the word at SS:SP, then increment SP
by 2; returns the value and the new state. -/
def pop_word (s : X86Cpu) : Nat × X86Cpu :=
  let v := cpu_read_word s (cpu_calc_addr s.ss s.sp)
  (v, { s with sp := (s.sp + 2) % 65536 })

/-- pushf (0x9C) from opcode.h. -/
def pushf (s : X86Cpu) : X86Cpu :=
  let s1 := push_word s s.flags
  { s1 with ip := (s1.ip + 1) % 65536 }

/-- popf (0x9D) from opcode.h: the popped word is assigned to FLAGS
unchanged (the value of a word read is already within uint16_t). -/
def popf (s : X86Cpu) : X86Cpu :=
  let p := pop_word s
  { p.2 with flags := p.1, ip := (p.2.ip + 1) % 65536 }

/-- iret (0xCF) from opcode.h: pop IP, then CS, then FLAGS, each
assigned unchanged. -/
def iret (s : X86Cpu) : X86Cpu :=
  let p1 := pop_word s
  let p2 := pop_word p1.2
  let p3 := pop_word p2.2
  { p3.2 with ip := p1.1, cs := p2.1, flags := p3.1 }

/-- lahf (0x9F) from opcode.h: cpu->ax.h = cpu->flags & 0xD7. -/
def lahf (s : X86Cpu) : X86Cpu :=
  { s with ax := withH s.ax (s.flags &&& 0xD7), ip := (s.ip + 1) % 65536 }

/-- salc (0xD6) from opcode.h: AL = 0xFF when CF is set, else 0. -/
def salc (s : X86Cpu) : X86Cpu :=
  { s with ax := withL s.ax (if s.flags &&& FLAGS_CF ≠ 0 then 0xFF else 0x00),
           ip := (s.ip + 1) % 65536 }

/-- daa (0x27) from opcode.h: low-nibble adjust on AL with AF, then
high adjust testing the saved pre-adjust AL against 0x99 with the
saved CF, then ZF/SF/PF from the final AL; IP advances by 1.  The two
AL additions are uint8_t and wrap mod 256. -/
def daa (s : X86Cpu) : X86Cpu :=
  let old_al := s.ax % 256
  let old_cf := s.flags &&& FLAGS_CF ≠ 0
  let p1 :=
    if 9 < (old_al &&& 0x0F) ∨ s.flags &&& FLAGS_AF ≠ 0 then
      ((old_al + 6) % 256, set_flag s.flags FLAGS_AF)
    else (old_al, clear_flag s.flags FLAGS_AF)
  let p2 :=
    if 0x99 < old_al ∨ old_cf then
      ((p1.1 + 0x60) % 256, set_flag p1.2 FLAGS_CF)
    else (p1.1, clear_flag p1.2 FLAGS_CF)
  { s with ax := withL s.ax p2.1,
           flags := update_flags_szp p2.2 p2.1 true,
           ip := (s.ip + 1) % 65536 }

/-- lea (0x8D) from opcode.h: register operands halt the CPU;
otherwise the destination 16-bit register receives the effective
address masked to 16 bits, and IP advances by modrm.length only (the
opcode byte is not counted). -/
def lea (s : X86Cpu) : X86Cpu :=
  let pc := cpu_get_pc s
  let m := decode_modrm s (pc + 1)
  if !m.is_memory then { s with running := 0 }
  else
    let s1 := set_reg16 s m.reg (m.ea % 65536)
    { s1 with ip := (s1.ip + m.length) % 65536 }

/-- lds (0xC5) from opcode.h: load offset from [m] and segment from
[m+2] into the destination register and DS; IP advances by
modrm.length only. -/
def lds (s : X86Cpu) : X86Cpu :=
  let pc := cpu_get_pc s
  let m := decode_modrm s (pc + 1)
  if !m.is_memory then { s with running := 0 }
  else
    let off := cpu_read_word s m.ea
    let seg := cpu_read_word s (m.ea + 2)
    let s1 := set_reg16 s m.reg off
    { s1 with ds := seg, ip := (s1.ip + m.length) % 65536 }

/-- les (0xC4) from opcode.h: like lds but loading ES. -/
def les (s : X86Cpu) : X86Cpu :=
  let pc := cpu_get_pc s
  let m := decode_modrm s (pc + 1)
  if !m.is_memory then { s with running := 0 }
  else
    let off := cpu_read_word s m.ea
    let seg := cpu_read_word s (m.ea + 2)
    let s1 := set_reg16 s m.reg off
    { s1 with es := seg, ip := (s1.ip + m.length) % 65536 }

/-- mov_seg (0x8C, 0x8E) from opcode.h: move between a segment
register selected by the reg field (0 ES, 1 CS, 2 SS, 3 DS; larger
values halt) and r/m; IP advances by modrm.length only. -/
def mov_seg (s : X86Cpu) : X86Cpu :=
  let pc := cpu_get_pc s
  let opcode := cpu_read_byte s pc
  let m := decode_modrm s (pc + 1)
  if 3 < m.reg then { s with running := 0 }
  else if opcode == 0x8C then
    let v :=
      if m.reg == 0 then s.es
      else if m.reg == 1 then s.cs
      else if m.reg == 2 then s.ss
      else s.ds
    let s1 := if m.is_memory then cpu_write_word s m.ea v else set_reg16 s m.rm v
    { s1 with ip := (s1.ip + m.length) % 65536 }
  else
    let v := if m.is_memory then cpu_read_word s m.ea else get_reg16 s m.rm
    let s1 :=
      if m.reg == 0 then { s with es := v }
      else if m.reg == 1 then { s with cs := v }
      else if m.reg == 2 then { s with ss := v }
      else { s with ds := v }
    { s1 with ip := (s1.ip + m.length) % 65536 }

/-- mov_mem (0xA0..0xA3) from opcode.h: direct-address accumulator
moves.  The address is (cpu->ds << 4) + offset with no 20-bit mask and
no segment-override consultation. -/
def mov_mem (s : X86Cpu) : X86Cpu :=
  let pc := cpu_get_pc s
  let opcode := cpu_read_byte s pc
  let off := cpu_read_word s (pc + 1)
  let addr := s.ds * 16 + off
  if opcode == 0xA0 then
    { s with ax := withL s.ax (cpu_read_byte s addr), ip := (s.ip + 3) % 65536 }
  else if opcode == 0xA1 then
    { s with ax := cpu_read_word s addr, ip := (s.ip + 3) % 65536 }
  else if opcode == 0xA2 then
    let s1 := cpu_write_byte s addr (s.ax % 256)
    { s1 with ip := (s1.ip + 3) % 65536 }
  else if opcode == 0xA3 then
    let s1 := cpu_write_word s addr s.ax
    { s1 with ip := (s1.ip + 3) % 65536 }
  else s

/-- adjust_si_di from opcode.h: move SI and DI by the operand size,
down when DF is set and up otherwise, with uint16_t wraparound. -/
def adjust_si_di (s : X86Cpu) (is_byte : Bool) : X86Cpu :=
  let delta := if is_byte then 1 else 2
  if s.flags &&& FLAGS_DF ≠ 0 then
    { s with si := (s.si + 65536 - delta) % 65536,
             di := (s.di + 65536 - delta) % 65536 }
  else
    { s with si := (s.si + delta) % 65536, di := (s.di + delta) % 65536 }

/-- movs (0xA4, 0xA5) from opcode.h: copy a byte or word from
(cpu->ds << 4) + SI to (cpu->es << 4) + DI (neither address is masked
to 20 bits, and the source segment ignores any override), then adjust
SI and DI and advance IP by 1. -/
def movs (s : X86Cpu) : X86Cpu :=
  let pc := cpu_get_pc s
  let opcode := cpu_read_byte s pc
  let is_byte := opcode == 0xA4
  let src_addr := s.ds * 16 + s.si
  let dst_addr := s.es * 16 + s.di
  let s1 :=
    if is_byte then cpu_write_byte s dst_addr (cpu_read_byte s src_addr)
    else cpu_write_word s dst_addr (cpu_read_word s src_addr)
  let s2 := adjust_si_di s1 is_byte
  { s2 with ip := (s2.ip + 1) % 65536 }

/-- chk_overflow_sub from opcode.h: signed-subtraction overflow, set
when src and dst have different signs and the result sign differs from
dst. -/
def chk_overflow_sub (fl src dst result : Nat) (is_byte : Bool) : Nat :=
  if is_byte then
    let src_sign := src &&& 0x80 ≠ 0
    let dst_sign := dst &&& 0x80 ≠ 0
    let res_sign := result &&& 0x80 ≠ 0
    if src_sign ≠ dst_sign ∧ dst_sign ≠ res_sign then set_flag fl FLAGS_OV
    else clear_flag fl FLAGS_OV
  else
    let src_sign := src &&& 0x8000 ≠ 0
    let dst_sign := dst &&& 0x8000 ≠ 0
    let res_sign := result &&& 0x8000 ≠ 0
    if src_sign ≠ dst_sign ∧ dst_sign ≠ res_sign then set_flag fl FLAGS_OV
    else clear_flag fl FLAGS_OV

/-- chk_aux_carry_sub from opcode.h: AF is set on a low-nibble
borrow. -/
def chk_aux_carry_sub (fl src dst : Nat) : Nat :=
  if (dst &&& 0x0F) < (src &&& 0x0F) then set_flag fl FLAGS_AF
  else clear_flag fl FLAGS_AF

/-- update_flags_logic from opcode.h: clear CF, OF and AF, then set
ZF, SF and PF from the result. -/
def update_flags_logic (fl result : Nat) (is_byte : Bool) : Nat :=
  let fl := clear_flag fl FLAGS_CF
  let fl := clear_flag fl FLAGS_OV
  let fl := clear_flag fl FLAGS_AF
  update_flags_szp fl result is_byte

/-- The value of a uint8 reinterpreted as a C int8_t. -/
def toInt8 (n : Nat) : Int :=
  if n % 256 < 128 then ((n % 256 : Nat) : Int) else ((n % 256 : Nat) : Int) - 256

/-- The value of a uint16 reinterpreted as a C int16_t. -/
def toInt16 (n : Nat) : Int :=
  if n % 65536 < 32768 then ((n % 65536 : Nat) : Int)
  else ((n % 65536 : Nat) : Int) - 65536

/-- The value of a uint32 reinterpreted as a C int32_t. -/
def toInt32 (n : Nat) : Int :=
  if n % 4294967296 < 2147483648 then ((n % 4294967296 : Nat) : Int)
  else ((n % 4294967296 : Nat) : Int) - 4294967296

/-- Store an Int into a uint8_t: two's-complement wrap to 8 bits.
Int.emod always returns a value in [0, 256). -/
def ofInt8 (i : Int) : Nat := (Int.emod i 256).toNat

/-- Store an Int into a uint16_t: two's-complement wrap to 16 bits. -/
def ofInt16 (i : Int) : Nat := (Int.emod i 65536).toNat

/-- grp3 (0xF6, 0xF7) from opcode.h: TEST, NOT, NEG, MUL, IMUL, DIV
and IDIV selected by the reg field; reg = 1 or an impossible value
halts the CPU.  DIV and IDIV halt the CPU on a zero divisor or an
out-of-range quotient, before any state change.  IMUL and IDIV use
C signed arithmetic: Int.tdiv and Int.tmod truncate toward zero as C
division does, and the stores wrap two's-complement. -/
def grp3 (s : X86Cpu) : X86Cpu :=
  let pc := cpu_get_pc s
  let opcode := cpu_read_byte s pc
  let is_byte := opcode == 0xF6
  let m := decode_modrm s (pc + 1)
  let operand :=
    if is_byte then
      (if m.is_memory then cpu_read_byte s m.ea else get_reg8 s m.rm)
    else
      (if m.is_memory then cpu_read_word s m.ea else get_reg16 s m.rm)
  if m.reg == 0 then
    -- TEST r/m, imm
    let imm :=
      if is_byte then cpu_read_byte s (pc + 1 + m.length)
      else cpu_read_word s (pc + 1 + m.length)
    let result := operand &&& imm
    { s with flags := update_flags_logic s.flags result is_byte,
             ip := (s.ip + 1 + m.length + (if is_byte then 1 else 2)) % 65536 }
  else if m.reg == 2 then
    -- NOT r/m: no flag changes
    let result := 65535 ^^^ operand
    if is_byte then
      let result := result &&& 0xFF
      let s1 := if m.is_memory then cpu_write_byte s m.ea result
                else set_reg8 s m.rm result
      { s1 with ip := (s1.ip + 1 + m.length) % 65536 }
    else
      let s1 := if m.is_memory then cpu_write_word s m.ea result
                else set_reg16 s m.rm result
      { s1 with ip := (s1.ip + 1 + m.length) % 65536 }
  else if m.reg == 3 then
    -- NEG r/m
    let result := (65536 - operand % 65536) % 65536
    if is_byte then
      let result := result &&& 0xFF
      let fl := clear_flag s.flags FLAGS_CF
      let fl := if result ≠ 0 then set_flag fl FLAGS_CF else fl
      let fl := chk_overflow_sub fl operand 0 result true
      let fl := chk_aux_carry_sub fl operand 0
      let fl := update_flags_szp fl result true
      let s1 := if m.is_memory then cpu_write_byte s m.ea result
                else set_reg8 s m.rm result
      { s1 with flags := fl, ip := (s1.ip + 1 + m.length) % 65536 }
    else
      let fl := clear_flag s.flags FLAGS_CF
      let fl := if result ≠ 0 then set_flag fl FLAGS_CF else fl
      let fl := chk_overflow_sub fl operand 0 result false
      let fl := chk_aux_carry_sub fl (operand &&& 0xFF) 0
      let fl := update_flags_szp fl result false
      let s1 := if m.is_memory then cpu_write_word s m.ea result
                else set_reg16 s m.rm result
      { s1 with flags := fl, ip := (s1.ip + 1 + m.length) % 65536 }
  else if m.reg == 4 then
    -- MUL r/m
    if is_byte then
      let result := (s.ax % 256) * operand
      let s1 := { s with ax := result % 65536 }
      let fl :=
        if s1.ax / 256 % 256 == 0 then
          clear_flag (clear_flag s1.flags FLAGS_CF) FLAGS_OV
        else set_flag (set_flag s1.flags FLAGS_CF) FLAGS_OV
      { s1 with flags := fl, ip := (s1.ip + 1 + m.length) % 65536 }
    else
      let result := s.ax * operand
      let s1 := { s with ax := result % 65536, dx := result / 65536 % 65536 }
      let fl :=
        if s1.dx == 0 then clear_flag (clear_flag s1.flags FLAGS_CF) FLAGS_OV
        else set_flag (set_flag s1.flags FLAGS_CF) FLAGS_OV
      { s1 with flags := fl, ip := (s1.ip + 1 + m.length) % 65536 }
  else if m.reg == 5 then
    -- IMUL r/m
    if is_byte then
      let result := toInt8 (s.ax % 256) * toInt8 operand
      let s1 := { s with ax := ofInt16 result }
      let fl :=
        if toInt8 (s1.ax / 256 % 256) == 0 || toInt8 (s1.ax / 256 % 256) == -1 then
          clear_flag (clear_flag s1.flags FLAGS_CF) FLAGS_OV
        else set_flag (set_flag s1.flags FLAGS_CF) FLAGS_OV
      { s1 with flags := fl, ip := (s1.ip + 1 + m.length) % 65536 }
    else
      let result := toInt16 s.ax * toInt16 operand
      let s1 := { s with ax := ofInt16 result,
                         dx := ofInt16 (Int.fdiv result 65536) }
      let fl :=
        if toInt16 s1.dx == 0 || toInt16 s1.dx == -1 then
          clear_flag (clear_flag s1.flags FLAGS_CF) FLAGS_OV
        else set_flag (set_flag s1.flags FLAGS_CF) FLAGS_OV
      { s1 with flags := fl, ip := (s1.ip + 1 + m.length) % 65536 }
  else if m.reg == 6 then
    -- DIV r/m
    if operand == 0 then { s with running := 0 }
    else if is_byte then
      let dividend := s.ax
      let quotient_check := dividend / operand
      if 0xFF < quotient_check then { s with running := 0 }
      else
        { s with ax := withH (withL s.ax quotient_check) (dividend % operand),
                 ip := (s.ip + 1 + m.length) % 65536 }
    else
      let dividend := 65536 * s.dx + s.ax
      let quotient_check := dividend / operand
      if 0xFFFF < quotient_check then { s with running := 0 }
      else
        { s with ax := quotient_check % 65536,
                 dx := dividend % operand % 65536,
                 ip := (s.ip + 1 + m.length) % 65536 }
  else if m.reg == 7 then
    -- IDIV r/m
    if operand == 0 then { s with running := 0 }
    else if is_byte then
      let dividend := toInt16 s.ax
      let divisor := toInt8 operand
      let quotient_check := Int.tdiv dividend divisor
      if 127 < quotient_check ∨ quotient_check < -128 then
        { s with running := 0 }
      else
        { s with ax := withH (withL s.ax (ofInt8 quotient_check))
                             (ofInt8 (Int.tmod dividend divisor)),
                 ip := (s.ip + 1 + m.length) % 65536 }
    else
      let dividend := toInt32 (65536 * s.dx + s.ax)
      let divisor := toInt16 operand
      let quotient_check := Int.tdiv dividend divisor
      if 32767 < quotient_check ∨ quotient_check < -32768 then
        { s with running := 0 }
      else
        { s with ax := ofInt16 quotient_check,
                 dx := ofInt16 (Int.tmod dividend divisor),
                 ip := (s.ip + 1 + m.length) % 65536 }
  else { s with running := 0 }

/-- One-iteration-at-a-time ROL loop from shift_rotate_op: each
iteration rotates left by one and stores the rotated-out bit in CF.
Returns the result and the flags word. -/
def rol_loop (is_byte : Bool) : Nat → Nat → Nat → Nat × Nat
  | 0, result, fl => (result, fl)
  | n + 1, result, fl =>
    let new_cf := if is_byte then result &&& 0x80 ≠ 0 else result &&& 0x8000 ≠ 0
    let result' :=
      if is_byte then ((result <<< 1) ||| (if new_cf then 1 else 0)) &&& 0xFF
      else ((result <<< 1) ||| (if new_cf then 1 else 0)) &&& 0xFFFF
    let fl' := if new_cf then set_flag fl FLAGS_CF else clear_flag fl FLAGS_CF
    rol_loop is_byte n result' fl'

/-- ROR loop from shift_rotate_op. -/
def ror_loop (is_byte : Bool) : Nat → Nat → Nat → Nat × Nat
  | 0, result, fl => (result, fl)
  | n + 1, result, fl =>
    let new_cf := result &&& 0x1 ≠ 0
    let result' :=
      if is_byte then ((result >>> 1) ||| (if new_cf then 0x80 else 0)) &&& 0xFF
      else ((result >>> 1) ||| (if new_cf then 0x8000 else 0)) &&& 0xFFFF
    let fl' := if new_cf then set_flag fl FLAGS_CF else clear_flag fl FLAGS_CF
    ror_loop is_byte n result' fl'

/-- RCL loop from shift_rotate_op: rotate through carry, threading
old_cf. -/
def rcl_loop (is_byte : Bool) : Nat → Nat → Bool → Nat → Nat × Nat
  | 0, result, _, fl => (result, fl)
  | n + 1, result, old_cf, fl =>
    let new_cf := if is_byte then result &&& 0x80 ≠ 0 else result &&& 0x8000 ≠ 0
    let result' :=
      if is_byte then ((result <<< 1) ||| (if old_cf then 1 else 0)) &&& 0xFF
      else ((result <<< 1) ||| (if old_cf then 1 else 0)) &&& 0xFFFF
    let fl' := if new_cf then set_flag fl FLAGS_CF else clear_flag fl FLAGS_CF
    rcl_loop is_byte n result' new_cf fl'

/-- RCR loop from shift_rotate_op. -/
def rcr_loop (is_byte : Bool) : Nat → Nat → Bool → Nat → Nat × Nat
  | 0, result, _, fl => (result, fl)
  | n + 1, result, old_cf, fl =>
    let new_cf := result &&& 0x1 ≠ 0
    let result' :=
      if is_byte then ((result >>> 1) ||| (if old_cf then 0x80 else 0)) &&& 0xFF
      else ((result >>> 1) ||| (if old_cf then 0x8000 else 0)) &&& 0xFFFF
    let fl' := if new_cf then set_flag fl FLAGS_CF else clear_flag fl FLAGS_CF
    rcr_loop is_byte n result' new_cf fl'

/-- SHL loop from shift_rotate_op: new_cf is the most recent
shifted-out bit; CF is only written after the loop.  The Bool argument
carries the running new_cf (the C variable is uninitialized before the
first iteration; callers guard count > 0). -/
def shl_loop (is_byte : Bool) : Nat → Nat → Bool → Nat × Bool
  | 0, result, cf => (result, cf)
  | n + 1, result, _ =>
    let new_cf := if is_byte then result &&& 0x80 ≠ 0 else result &&& 0x8000 ≠ 0
    let result' := if is_byte then (result <<< 1) &&& 0xFF
                   else (result <<< 1) &&& 0xFFFF
    shl_loop is_byte n result' new_cf

/-- SHR loop from shift_rotate_op (the body does not depend on the
width). -/
def shr_loop : Nat → Nat → Bool → Nat × Bool
  | 0, result, cf => (result, cf)
  | n + 1, result, _ =>
    let new_cf := result &&& 0x1 ≠ 0
    shr_loop n (result >>> 1) new_cf

/-- SAR loop from shift_rotate_op: shift right replicating the sign
bit. -/
def sar_loop (is_byte : Bool) : Nat → Nat → Bool → Nat × Bool
  | 0, result, cf => (result, cf)
  | n + 1, result, _ =>
    let new_cf := result &&& 0x1 ≠ 0
    let result' :=
      if is_byte then
        (if result &&& 0x80 ≠ 0 then (result >>> 1) ||| 0x80 else result >>> 1)
      else
        (if result &&& 0x8000 ≠ 0 then (result >>> 1) ||| 0x8000 else result >>> 1)
    sar_loop is_byte n result' new_cf

/-- shift_rotate_op (0xD0..0xD3) from opcode.h.  The count is 1 or CL,
masked to 5 bits.  The switch on the reg field is rendered as an
if-chain computing the result and the flags word, followed by the
write-back and the IP advance by 1 + modrm.length. -/
def shift_rotate_op (s : X86Cpu) : X86Cpu :=
  let pc := cpu_get_pc s
  let opcode := cpu_read_byte s pc
  let is_byte := opcode &&& 0x1 == 0
  let use_cl := opcode &&& 0x2 ≠ 0
  let m := decode_modrm s (pc + 1)
  let count := (if use_cl then s.cx % 256 else 1) &&& 0x1F
  let operation := m.reg
  let value :=
    if is_byte then
      (if m.is_memory then cpu_read_byte s m.ea else get_reg8 s m.rm)
    else
      (if m.is_memory then cpu_read_word s m.ea else get_reg16 s m.rm)
  let old_cf := s.flags &&& FLAGS_CF ≠ 0
  let p :=
    if operation == 0 then
      let q := rol_loop is_byte count value s.flags
      if count == 1 then
        let new_msb := if is_byte then q.1 &&& 0x80 ≠ 0 else q.1 &&& 0x8000 ≠ 0
        if new_msb ≠ (q.2 &&& FLAGS_CF ≠ 0) then (q.1, set_flag q.2 FLAGS_OV)
        else (q.1, clear_flag q.2 FLAGS_OV)
      else q
    else if operation == 1 then
      let q := ror_loop is_byte count value s.flags
      if count == 1 then
        let msb := if is_byte then q.1 &&& 0x80 ≠ 0 else q.1 &&& 0x8000 ≠ 0
        let next_msb := if is_byte then q.1 &&& 0x40 ≠ 0 else q.1 &&& 0x4000 ≠ 0
        if msb ≠ next_msb then (q.1, set_flag q.2 FLAGS_OV)
        else (q.1, clear_flag q.2 FLAGS_OV)
      else q
    else if operation == 2 then
      let q := rcl_loop is_byte count value old_cf s.flags
      if count == 1 then
        let new_msb := if is_byte then q.1 &&& 0x80 ≠ 0 else q.1 &&& 0x8000 ≠ 0
        if new_msb ≠ (q.2 &&& FLAGS_CF ≠ 0) then (q.1, set_flag q.2 FLAGS_OV)
        else (q.1, clear_flag q.2 FLAGS_OV)
      else q
    else if operation == 3 then
      let q := rcr_loop is_byte count value old_cf s.flags
      if count == 1 then
        let msb := if is_byte then q.1 &&& 0x80 ≠ 0 else q.1 &&& 0x8000 ≠ 0
        let next_msb := if is_byte then q.1 &&& 0x40 ≠ 0 else q.1 &&& 0x4000 ≠ 0
        if msb ≠ next_msb then (q.1, set_flag q.2 FLAGS_OV)
        else (q.1, clear_flag q.2 FLAGS_OV)
      else q
    else if operation == 4 || operation == 6 then
      if 0 < count then
        let q := shl_loop is_byte count value false
        let fl := if q.2 then set_flag s.flags FLAGS_CF
                  else clear_flag s.flags FLAGS_CF
        let fl := update_flags_szp fl q.1 is_byte
        let fl := clear_flag fl FLAGS_AF
        let fl :=
          if count == 1 then
            let msb := if is_byte then q.1 &&& 0x80 ≠ 0 else q.1 &&& 0x8000 ≠ 0
            if msb ≠ q.2 then set_flag fl FLAGS_OV else clear_flag fl FLAGS_OV
          else clear_flag fl FLAGS_OV
        (q.1, fl)
      else (value, s.flags)
    else if operation == 5 then
      if 0 < count then
        let q := shr_loop count value false
        let fl := if q.2 then set_flag s.flags FLAGS_CF
                  else clear_flag s.flags FLAGS_CF
        let fl := update_flags_szp fl q.1 is_byte
        let fl := clear_flag fl FLAGS_AF
        let fl :=
          if count == 1 then
            (if is_byte then
              (if value &&& 0x80 ≠ 0 then set_flag fl FLAGS_OV
               else clear_flag fl FLAGS_OV)
            else
              (if value &&& 0x8000 ≠ 0 then set_flag fl FLAGS_OV
               else clear_flag fl FLAGS_OV))
          else clear_flag fl FLAGS_OV
        (q.1, fl)
      else (value, s.flags)
    else if operation == 7 then
      if 0 < count then
        let q := sar_loop is_byte count value false
        let fl := if q.2 then set_flag s.flags FLAGS_CF
                  else clear_flag s.flags FLAGS_CF
        let fl := update_flags_szp fl q.1 is_byte
        let fl := clear_flag fl FLAGS_AF
        let fl := if count == 1 then clear_flag fl FLAGS_OV
                  else clear_flag fl FLAGS_OV
        (q.1, fl)
      else (value, s.flags)
    else (value, s.flags)
  let s1 :=
    if is_byte then
      (if m.is_memory then cpu_write_byte s m.ea (p.1 &&& 0xFF)
       else set_reg8 s m.rm (p.1 &&& 0xFF))
    else
      (if m.is_memory then cpu_write_word s m.ea p.1
       else set_reg16 s m.rm p.1)
  { s1 with flags := p.2, ip := (s1.ip + 1 + m.length) % 65536 }

/-- The branches of the switch in the dispatcher do_op (the version
with prefix handling in the main emulator translation unit), one
constructor per distinct handler invocation plus undef for the default
branch. -/
inductive DispatchCase where
  | addOp | pushSeg | popSeg | orOp | adcOp | sbbOp | andOp | daaCase | subOp
  | dasCase | xorOp | aaaCase | cmpOp | aasCase | incReg16 | decReg16
  | pushReg16 | popReg16 | jcc | grp1Imm | testOp | xchgModrm | movModrm
  | movSegCase | leaCase | popRm | xchgAx | cbw | cwd | callFar | pushfCase
  | popfCase | sahfCase | lahfCase | movMemCase | movsCase | cmpsCase
  | stosCase | lodsCase | scasCase | movCase | retNearPop | retNear | lesCase
  | ldsCase | movRmImm | retFarPop | retFar | int3 | intOp | intoCase
  | iretCase | shiftRotate | aamCase | aadCase | loopnz | loopz | loopOp
  | jcxz | callNear | jmpNear | jmpfCase | jmpShort | hlt | cmc | grp3Case
  | clc | stc | cli | sti | cld | stdCase | grp45 | undefCase
deriving DecidableEq

/-- The prefix bytes consumed by the prefix loop at the top of do_op:
segment overrides 0x26, 0x2E, 0x36, 0x3E and REP/REPNE 0xF2, 0xF3. -/
def isPrefixByte (b : Nat) : Bool :=
  b == 0x26 || b == 0x2E || b == 0x36 || b == 0x3E || b == 0xF2 || b == 0xF3

/-- The opcode-to-branch mapping of the switch in do_op.  Opcodes with
no case label select the default branch (undef); the prefix bytes
never reach the switch but also carry no case label. -/
def doOpCase (b : Nat) : DispatchCase :=
  if b ≤ 0x05 then .addOp
  else if b == 0x06 then .pushSeg
  else if b == 0x07 then .popSeg
  else if 0x08 ≤ b ∧ b ≤ 0x0D then .orOp
  else if b == 0x0E then .pushSeg
  else if b == 0x0F then .popSeg
  else if 0x10 ≤ b ∧ b ≤ 0x15 then .adcOp
  else if b == 0x16 then .pushSeg
  else if b == 0x17 then .popSeg
  else if 0x18 ≤ b ∧ b ≤ 0x1D then .sbbOp
  else if b == 0x1E then .pushSeg
  else if b == 0x1F then .popSeg
  else if 0x20 ≤ b ∧ b ≤ 0x25 then .andOp
  else if b == 0x27 then .daaCase
  else if 0x28 ≤ b ∧ b ≤ 0x2D then .subOp
  else if b == 0x2F then .dasCase
  else if 0x30 ≤ b ∧ b ≤ 0x35 then .xorOp
  else if b == 0x37 then .aaaCase
  else if 0x38 ≤ b ∧ b ≤ 0x3D then .cmpOp
  else if b == 0x3F then .aasCase
  else if 0x40 ≤ b ∧ b ≤ 0x47 then .incReg16
  else if 0x48 ≤ b ∧ b ≤ 0x4F then .decReg16
  else if 0x50 ≤ b ∧ b ≤ 0x57 then .pushReg16
  else if 0x58 ≤ b ∧ b ≤ 0x5F then .popReg16
  else if 0x60 ≤ b ∧ b ≤ 0x7F then .jcc
  else if 0x80 ≤ b ∧ b ≤ 0x83 then .grp1Imm
  else if 0x84 ≤ b ∧ b ≤ 0x85 then .testOp
  else if 0x86 ≤ b ∧ b ≤ 0x87 then .xchgModrm
  else if 0x88 ≤ b ∧ b ≤ 0x8B then .movModrm
  else if b == 0x8C then .movSegCase
  else if b == 0x8D then .leaCase
  else if b == 0x8E then .movSegCase
  else if b == 0x8F then .popRm
  else if 0x90 ≤ b ∧ b ≤ 0x97 then .xchgAx
  else if b == 0x98 then .cbw
  else if b == 0x99 then .cwd
  else if b == 0x9A then .callFar
  else if b == 0x9C then .pushfCase
  else if b == 0x9D then .popfCase
  else if b == 0x9E then .sahfCase
  else if b == 0x9F then .lahfCase
  else if 0xA0 ≤ b ∧ b ≤ 0xA3 then .movMemCase
  else if 0xA4 ≤ b ∧ b ≤ 0xA5 then .movsCase
  else if 0xA6 ≤ b ∧ b ≤ 0xA7 then .cmpsCase
  else if 0xA8 ≤ b ∧ b ≤ 0xA9 then .testOp
  else if 0xAA ≤ b ∧ b ≤ 0xAB then .stosCase
  else if 0xAC ≤ b ∧ b ≤ 0xAD then .lodsCase
  else if 0xAE ≤ b ∧ b ≤ 0xAF then .scasCase
  else if 0xB0 ≤ b ∧ b ≤ 0xBF then .movCase
  else if b == 0xC2 then .retNearPop
  else if b == 0xC3 then .retNear
  else if b == 0xC4 then .lesCase
  else if b == 0xC5 then .ldsCase
  else if b == 0xC6 ∨ b == 0xC7 then .movRmImm
  else if b == 0xC8 then .retFarPop
  else if b == 0xC9 then .retFar
  else if b == 0xCA then .retFarPop
  else if b == 0xCB then .retFar
  else if b == 0xCC then .int3
  else if b == 0xCD then .intOp
  else if b == 0xCE then .intoCase
  else if b == 0xCF then .iretCase
  else if 0xD0 ≤ b ∧ b ≤ 0xD3 then .shiftRotate
  else if b == 0xD4 then .aamCase
  else if b == 0xD5 then .aadCase
  else if b == 0xE0 then .loopnz
  else if b == 0xE1 then .loopz
  else if b == 0xE2 then .loopOp
  else if b == 0xE3 then .jcxz
  else if b == 0xE8 then .callNear
  else if b == 0xE9 then .jmpNear
  else if b == 0xEA then .jmpfCase
  else if b == 0xEB then .jmpShort
  else if b == 0xF4 then .hlt
  else if b == 0xF5 then .cmc
  else if b == 0xF6 ∨ b == 0xF7 then .grp3Case
  else if b == 0xF8 then .clc
  else if b == 0xF9 then .stc
  else if b == 0xFA then .cli
  else if b == 0xFB then .sti
  else if b == 0xFC then .cld
  else if b == 0xFD then .stdCase
  else if b == 0xFE ∨ b == 0xFF then .grp45
  else .undefCase

/-- The effect of the default branch of the do_op switch followed by
the dispatcher epilogue: undef_op only prints a diagnostic, then
cpu->running = 0, and after the switch cpu->seg_override = 0. -/
def doOpUndef (s : X86Cpu) : X86Cpu :=
  { s with running := 0, seg_override := 0 }

/-- Even parity of the low 8 bits: true when the number of set bits
among bits 0..7 is even.  This is the specification-level reading of
the parity flag. -/
def parity8 (n : Nat) : Bool :=
  (List.range 8).countP (fun i => n.testBit i) % 2 == 0

/-- A CPU state with all registers zero, running, with the given
memory. -/
def zeroed (ram : Nat → Nat) : X86Cpu :=
  { ram := ram, ax := 0, bx := 0, cx := 0, dx := 0, sp := 0, bp := 0,
    si := 0, di := 0, ip := 0, flags := 0, cs := 0, ds := 0, ss := 0,
    es := 0, seg_override := 0, rep_pfx := 0, running := 1 }

/-- Concrete state for the C1 counterexample: distinct bytes at the
top of memory and at address 0. -/
def exC1 : X86Cpu :=
  zeroed (fun a => if a = 0xFFFFF then 0xAB else if a = 0 then 0xCD else 0)

/-- Concrete state for the C1 witness: empty memory. -/
def exC1w : X86Cpu := zeroed (fun _ => 0)

/-- Concrete state for C2: LEA AX, [BX+SI] encoded 8D 00 at CS:IP =
0:0x100. -/
def exC2 : X86Cpu :=
  { zeroed (fun a => if a = 0x100 then 0x8D else if a = 0x101 then 0x00 else 0)
    with ip := 0x100 }

/-- Concrete state for C3: MOVSB (A4) at 0:0x100 with an active ES
segment override, DS = 0x1000, SI = 0, ES = 0x2000, DI = 0x10, and
distinct bytes at phys(DS,SI) = 0x10000 and phys(ES,SI) = 0x20000. -/
def exC3 : X86Cpu :=
  { zeroed (fun a =>
      if a = 0x100 then 0xA4
      else if a = 0x10000 then 0x42
      else if a = 0x20000 then 0x99 else 0)
    with ip := 0x100, ds := 0x1000, si := 0, es := 0x2000, di := 0x10,
         seg_override := 1 }

/-- Concrete state for the C4 witness: Grp3 byte DIV with register
operand DH (encoding F6 F6) and DH = 0, a divide-by-zero. -/
def exC4 : X86Cpu :=
  { zeroed (fun a => if a = 0 then 0xF6 else if a = 1 then 0xF6 else 0)
    with ax := 0x1234 }

/-- Concrete state for the C5 counterexample: ROR AL, 1 (encoding D0
C8) with AL = 1. -/
def exC5 : X86Cpu :=
  { zeroed (fun a => if a = 0x100 then 0xD0 else if a = 0x101 then 0xC8 else 0)
    with ip := 0x100, ax := 1 }

/-- Concrete state for the C5 witness: ROL AL, 1 (encoding D0 C0) with
AL = 0x81. -/
def exC5w : X86Cpu :=
  { zeroed (fun a => if a = 0x100 then 0xD0 else if a = 0x101 then 0xC0 else 0)
    with ip := 0x100, ax := 0x81 }

/-- Concrete state for C6: all registers and FLAGS zero. -/
def exC6 : X86Cpu := zeroed (fun _ => 0)

/-- Concrete state for C7: byte 0xD6 at CS:IP = 0:0 and CF set. -/
def exC7 : X86Cpu :=
  { zeroed (fun a => if a = 0 then 0xD6 else 0) with flags := 1 }

/-- Concrete state for the C8 counterexample: SS:SP chosen so that the
pushed word lands at physical address 0xFFFFF, where the word write is
discarded. -/
def exC8 : X86Cpu := { zeroed (fun _ => 0) with ss := 0xF000, sp := 1 }

/-- Concrete state for the C8 witness: an ordinary in-bounds stack. -/
def exC8w : X86Cpu := { zeroed (fun _ => 0) with ss := 0x2000, sp := 0x100 }

/-- Concrete state for the C9 witness: AL = 0x9A with FLAGS = 0, so
DAA takes both adjusts (0x9A -> 0xA0 -> 0x00). -/
def exC9w : X86Cpu := { zeroed (fun _ => 0) with ax := 0x9A }

/-! Bit-level toolkit used by the flag proofs. -/

theorem ite_lt {c : Prop} [Decidable c] {a b n : Nat} (ha : a < n) (hb : b < n) :
    (if c then a else b) < n := by
  split <;> assumption

theorem and_two_pow_eq (d k : Nat) :
    d &&& 2 ^ k = if d.testBit k then 2 ^ k else 0 := by
  apply Nat.eq_of_testBit_eq
  intro i
  rw [Nat.testBit_and, Nat.testBit_two_pow]
  by_cases hdk : d.testBit k
  · simp only [hdk, if_true, Nat.testBit_two_pow]
    by_cases hik : k = i
    · subst hik; simp [hdk]
    · simp [hik]
  · simp only [hdk, if_false, Nat.zero_testBit]
    by_cases hik : k = i
    · subst hik; simp [hdk]
    · simp [hik]

theorem and_two_pow_ne_zero_iff (d k : Nat) :
    (d &&& 2 ^ k ≠ 0) ↔ d.testBit k = true := by
  rw [and_two_pow_eq]
  constructor
  · intro h
    by_contra hb
    simp only [Bool.not_eq_true] at hb
    simp [hb] at h
  · intro h
    have hp : 0 < 2 ^ k := Nat.pos_pow_of_pos k (by omega)
    simp [h]
    try omega

theorem testBit_set_flag (fl m i : Nat) :
    (set_flag fl m).testBit i = (fl.testBit i || m.testBit i) := by
  unfold set_flag
  exact Nat.testBit_or fl m i

theorem testBit_clear_flag (fl m i : Nat) :
    (clear_flag fl m).testBit i =
      (fl.testBit i && ((decide (i < 16)).xor (m.testBit i))) := by
  unfold clear_flag
  rw [Nat.testBit_and, Nat.testBit_xor]
  have h : (65535 : Nat) = 2 ^ 16 - 1 := rfl
  rw [h, Nat.testBit_two_pow_sub_one]

theorem FLAGS_CF_eq : FLAGS_CF = 2 ^ 0 := rfl

theorem FLAGS_PF_eq : FLAGS_PF = 2 ^ 2 := rfl

theorem FLAGS_AF_eq : FLAGS_AF = 2 ^ 4 := rfl

theorem FLAGS_ZF_eq : FLAGS_ZF = 2 ^ 6 := rfl

theorem FLAGS_SF_eq : FLAGS_SF = 2 ^ 7 := rfl

theorem FLAGS_OV_eq : FLAGS_OV = 2 ^ 11 := rfl

theorem FLAGS_DF_eq : FLAGS_DF = 2 ^ 10 := rfl

theorem testBit_set_flag_self (fl m k : Nat) (hm : m = 2 ^ k) :
    (set_flag fl m).testBit k = true := by
  rw [testBit_set_flag, hm, Nat.testBit_two_pow, decide_eq_true rfl,
      Bool.or_true]

theorem testBit_set_flag_ne (fl m k i : Nat) (hm : m = 2 ^ k) (hik : i ≠ k) :
    (set_flag fl m).testBit i = fl.testBit i := by
  rw [testBit_set_flag, hm, Nat.testBit_two_pow,
      decide_eq_false (fun h => hik h.symm), Bool.or_false]

theorem testBit_clear_flag_self (fl m k : Nat) (hm : m = 2 ^ k) (hk : k < 16) :
    (clear_flag fl m).testBit k = false := by
  rw [testBit_clear_flag, hm, Nat.testBit_two_pow, decide_eq_true rfl,
      decide_eq_true hk]
  simp

theorem testBit_clear_flag_ne (fl m k i : Nat) (hm : m = 2 ^ k)
    (hi : i < 16) (hik : i ≠ k) :
    (clear_flag fl m).testBit i = fl.testBit i := by
  rw [testBit_clear_flag, hm, Nat.testBit_two_pow, decide_eq_true hi,
      decide_eq_false (fun h => hik h.symm)]
  simp

theorem parity_fold_mod (d : Nat) : parity_fold d = parity_fold (d % 256) := by
  unfold parity_fold
  have h : d &&& 0xFF = d % 256 := Nat.and_pow_two_sub_one_eq_mod d 8
  have h2 : d % 256 &&& 0xFF = d % 256 := by
    have h3 := Nat.and_pow_two_sub_one_eq_mod (d % 256) 8
    have h4 : d % 256 % 2 ^ 8 = d % 256 := by
      rw [show (2 : Nat) ^ 8 = 256 from rfl]
      omega
    rw [h4] at h3
    exact h3
  rw [h, h2]

theorem parity8_mod (d : Nat) : parity8 d = parity8 (d % 256) := by
  unfold parity8
  have hc : (List.range 8).countP (fun i => d.testBit i) =
      (List.range 8).countP (fun i => (d % 256).testBit i) := by
    apply List.countP_congr
    intro i hi
    have hlt : i < 8 := List.mem_range.mp hi
    have h256 : (256 : Nat) = 2 ^ 8 := rfl
    rw [h256, Nat.testBit_mod_two_pow, decide_eq_true hlt, Bool.true_and]
  rw [hc]

set_option maxRecDepth 4000 in
theorem parity_fold_correct :
    ∀ c, c < 256 → ((parity_fold c &&& 0x1 == 0) = parity8 c) := by
  decide

/-- Bit 2 (PF) of the flags after chk_parity is the even parity of the
low byte of the data. -/
theorem chk_parity_testBit_2 (fl d : Nat) :
    (chk_parity fl d).testBit 2 = parity8 d := by
  have hcor := parity_fold_correct (d % 256) (Nat.mod_lt d (by omega))
  rw [← parity_fold_mod, ← parity8_mod] at hcor
  unfold chk_parity
  by_cases h : parity_fold d &&& 0x1 ≠ 0
  · rw [if_pos h, testBit_clear_flag_self fl FLAGS_PF 2 FLAGS_PF_eq (by omega)]
    have hne : (parity_fold d &&& 0x1 == 0) = false :=
      beq_eq_false_iff_ne.mpr h
    rw [hne] at hcor
    exact hcor
  · rw [if_neg h, testBit_set_flag_self fl FLAGS_PF 2 FLAGS_PF_eq]
    have hz : (parity_fold d &&& 0x1 == 0) = true :=
      beq_iff_eq.mpr (not_not.mp h)
    rw [hz] at hcor
    exact hcor

/-- Any bit other than 2 passes through chk_parity (bits up to 15). -/
theorem chk_parity_testBit_other (fl d i : Nat) (hi : i < 16) (h2 : i ≠ 2) :
    (chk_parity fl d).testBit i = fl.testBit i := by
  unfold chk_parity
  by_cases h : parity_fold d &&& 0x1 ≠ 0
  · rw [if_pos h, testBit_clear_flag_ne fl FLAGS_PF 2 i FLAGS_PF_eq hi h2]
  · rw [if_neg h, testBit_set_flag_ne fl FLAGS_PF 2 i FLAGS_PF_eq h2]

/-- Bit 6 (ZF) of the flags after chk_zero. -/
theorem chk_zero_testBit_6 (fl d : Nat) :
    (chk_zero fl d).testBit 6 = (d == 0) := by
  unfold chk_zero
  by_cases h : (d == 0) = true
  · rw [if_pos h, testBit_set_flag_self fl FLAGS_ZF 6 FLAGS_ZF_eq, h]
  · rw [if_neg h, testBit_clear_flag_self fl FLAGS_ZF 6 FLAGS_ZF_eq (by omega)]
    exact (Bool.eq_false_iff.mpr h).symm

/-- Any bit other than 6 passes through chk_zero (bits up to 15). -/
theorem chk_zero_testBit_other (fl d i : Nat) (hi : i < 16) (h6 : i ≠ 6) :
    (chk_zero fl d).testBit i = fl.testBit i := by
  unfold chk_zero
  by_cases h : (d == 0) = true
  · rw [if_pos h, testBit_set_flag_ne fl FLAGS_ZF 6 i FLAGS_ZF_eq h6]
  · rw [if_neg h, testBit_clear_flag_ne fl FLAGS_ZF 6 i FLAGS_ZF_eq hi h6]

/-- Bit 7 (SF) of the flags after chk_sign: the sign bit of the data
at the operand width. -/
theorem chk_sign_testBit_7 (fl d : Nat) (b : Bool) :
    (chk_sign fl d b).testBit 7 = (if b then d.testBit 7 else d.testBit 15) := by
  cases b
  · have hb : chk_sign fl d false =
        (if d &&& 0x8000 ≠ 0 then set_flag fl FLAGS_SF
         else clear_flag fl FLAGS_SF) := rfl
    rw [hb, if_neg (by simp : ¬((false : Bool) = true))]
    have h8000 : (0x8000 : Nat) = 2 ^ 15 := rfl
    by_cases h : d &&& 0x8000 ≠ 0
    · rw [if_pos h, testBit_set_flag_self fl FLAGS_SF 7 FLAGS_SF_eq]
      rw [h8000, and_two_pow_ne_zero_iff] at h
      exact h.symm
    · rw [if_neg h, testBit_clear_flag_self fl FLAGS_SF 7 FLAGS_SF_eq (by omega)]
      rw [h8000] at h
      have h0 : ¬d.testBit 15 = true :=
        fun hb2 => h ((and_two_pow_ne_zero_iff d 15).mpr hb2)
      exact (Bool.eq_false_iff.mpr h0).symm
  · have hb : chk_sign fl d true =
        (if d &&& 0x80 ≠ 0 then set_flag fl FLAGS_SF
         else clear_flag fl FLAGS_SF) := rfl
    rw [hb, if_pos rfl]
    have h80 : (0x80 : Nat) = 2 ^ 7 := rfl
    by_cases h : d &&& 0x80 ≠ 0
    · rw [if_pos h, testBit_set_flag_self fl FLAGS_SF 7 FLAGS_SF_eq]
      rw [h80, and_two_pow_ne_zero_iff] at h
      exact h.symm
    · rw [if_neg h, testBit_clear_flag_self fl FLAGS_SF 7 FLAGS_SF_eq (by omega)]
      rw [h80] at h
      have h0 : ¬d.testBit 7 = true :=
        fun hb2 => h ((and_two_pow_ne_zero_iff d 7).mpr hb2)
      exact (Bool.eq_false_iff.mpr h0).symm

/-- Any bit other than 7 passes through chk_sign (bits up to 15). -/
theorem chk_sign_testBit_other (fl d : Nat) (b : Bool) (i : Nat)
    (hi : i < 16) (h7 : i ≠ 7) :
    (chk_sign fl d b).testBit i = fl.testBit i := by
  cases b
  · have hb : chk_sign fl d false =
        (if d &&& 0x8000 ≠ 0 then set_flag fl FLAGS_SF
         else clear_flag fl FLAGS_SF) := rfl
    rw [hb]
    by_cases h : d &&& 0x8000 ≠ 0
    · rw [if_pos h, testBit_set_flag_ne fl FLAGS_SF 7 i FLAGS_SF_eq h7]
    · rw [if_neg h, testBit_clear_flag_ne fl FLAGS_SF 7 i FLAGS_SF_eq hi h7]
  · have hb : chk_sign fl d true =
        (if d &&& 0x80 ≠ 0 then set_flag fl FLAGS_SF
         else clear_flag fl FLAGS_SF) := rfl
    rw [hb]
    by_cases h : d &&& 0x80 ≠ 0
    · rw [if_pos h, testBit_set_flag_ne fl FLAGS_SF 7 i FLAGS_SF_eq h7]
    · rw [if_neg h, testBit_clear_flag_ne fl FLAGS_SF 7 i FLAGS_SF_eq hi h7]

/-- Bits other than 2, 6 and 7 pass through update_flags_szp. -/
theorem szp_testBit_other (fl r : Nat) (b : Bool) (i : Nat)
    (hi : i < 16) (h2 : i ≠ 2) (h6 : i ≠ 6) (h7 : i ≠ 7) :
    (update_flags_szp fl r b).testBit i = fl.testBit i := by
  unfold update_flags_szp
  rw [chk_parity_testBit_other _ _ _ hi h2,
      chk_sign_testBit_other _ _ _ _ hi h7,
      chk_zero_testBit_other _ _ _ hi h6]

/-- ZF after update_flags_szp: the width-masked result is zero. -/
theorem szp_testBit_6 (fl r : Nat) (b : Bool) :
    (update_flags_szp fl r b).testBit 6 = ((if b then r &&& 0xFF else r) == 0) := by
  unfold update_flags_szp
  rw [chk_parity_testBit_other _ _ _ (by omega) (by omega),
      chk_sign_testBit_other _ _ _ _ (by omega) (by omega),
      chk_zero_testBit_6]

/-- SF after update_flags_szp: the sign bit of the result. -/
theorem szp_testBit_7 (fl r : Nat) (b : Bool) :
    (update_flags_szp fl r b).testBit 7 =
      (if b then r.testBit 7 else r.testBit 15) := by
  unfold update_flags_szp
  rw [chk_parity_testBit_other _ _ _ (by omega) (by omega), chk_sign_testBit_7]

/-- PF after update_flags_szp: even parity of the low byte of the
result. -/
theorem szp_testBit_2 (fl r : Nat) (b : Bool) :
    (update_flags_szp fl r b).testBit 2 = parity8 r := by
  unfold update_flags_szp
  rw [chk_parity_testBit_2]

theorem ite_fst {α β : Type} {c : Prop} [Decidable c] (a b : α × β) :
    (if c then a else b).1 = if c then a.1 else b.1 := by
  split <;> rfl

theorem ite_snd {α β : Type} {c : Prop} [Decidable c] (a b : α × β) :
    (if c then a else b).2 = if c then a.2 else b.2 := by
  split <;> rfl

/-- ZF after update_flags_szp at byte width. -/
theorem szp_testBit_6_byte (fl r : Nat) :
    (update_flags_szp fl r true).testBit 6 = ((r &&& 0xFF) == 0) := by
  rw [szp_testBit_6, if_pos rfl]

/-- SF after update_flags_szp at byte width. -/
theorem szp_testBit_7_byte (fl r : Nat) :
    (update_flags_szp fl r true).testBit 7 = r.testBit 7 := by
  rw [szp_testBit_7, if_pos rfl]

/-- In-bounds behavior of cpu_write_word as an explicit state
equation. -/
theorem cpu_write_word_in (s : X86Cpu) (addr v : Nat)
    (h : addr + 1 < RAM_SIZE) :
    cpu_write_word s addr v =
      { s with ram := fun a =>
          if a = addr then v % 256
          else if a = addr + 1 then v / 256 % 256
          else s.ram a } := by
  unfold cpu_write_word
  rw [if_neg (by omega)]

/-- In-bounds behavior of cpu_read_word. -/
theorem cpu_read_word_in (s : X86Cpu) (addr : Nat)
    (h : addr + 1 < RAM_SIZE) :
    cpu_read_word s addr = s.ram addr + 256 * s.ram (addr + 1) := by
  unfold cpu_read_word
  rw [if_neg (by omega)]

/-! Well-formedness of the concrete states used by witnesses. -/

theorem wf_exC4 : Wf exC4 := by
  refine ⟨fun a => ?_, by decide, by decide, by decide, by decide, by decide,
    by decide, by decide, by decide, by decide, by decide, by decide,
    by decide, by decide, by decide⟩
  show (if a = 0 then 0xF6 else if a = 1 then 0xF6 else 0 : Nat) < 256
  exact ite_lt (by decide) (ite_lt (by decide) (by decide))

theorem wf_exC5w : Wf exC5w := by
  refine ⟨fun a => ?_, by decide, by decide, by decide, by decide, by decide,
    by decide, by decide, by decide, by decide, by decide, by decide,
    by decide, by decide, by decide⟩
  show (if a = 0x100 then 0xD0 else if a = 0x101 then 0xC0 else 0 : Nat) < 256
  exact ite_lt (by decide) (ite_lt (by decide) (by decide))

theorem wf_exC8w : Wf exC8w := by
  refine ⟨fun a => ?_, by decide, by decide, by decide, by decide, by decide,
    by decide, by decide, by decide, by decide, by decide, by decide,
    by decide, by decide, by decide⟩
  show (0 : Nat) < 256
  decide

/-- C1 (counterexample): the claim says a word read at physical
address 2^20 - 1 takes its high byte from address 0 and never fails.
In the code the bounds check rejects the access and returns 0xFFFF:
with 0xAB stored at the top byte and 0xCD at address 0, the read
returns 0xFFFF instead of the wrapped little-endian value 0xCDAB. -/
theorem read_word_top_no_wrap_cex :
    cpu_read_word exC1 0xFFFFF = 0xFFFF ∧
    exC1.ram 0xFFFFF + 256 * exC1.ram 0 = 0xCDAB ∧
    (0xFFFF : Nat) ≠ 0xCDAB := by
  decide

/-- C1 (amended): for every address a with a + 1 < 2^20, read_word
returns the little-endian pair of the bytes at a and a + 1, and
write_word stores the low byte at a and the high byte at a + 1,
leaving every other cell unchanged.  A word access at 2^20 - 1 does
not wrap: the read returns 0xFFFF and the write is discarded. -/
theorem mem_word_access_spec (s : X86Cpu) (a v : Nat)
    (hin : a + 1 < RAM_SIZE) :
    cpu_read_word s a = s.ram a + 256 * s.ram (a + 1) ∧
    (cpu_write_word s a v).ram a = v % 256 ∧
    (cpu_write_word s a v).ram (a + 1) = v / 256 % 256 ∧
    (∀ b, b ≠ a → b ≠ a + 1 → (cpu_write_word s a v).ram b = s.ram b) ∧
    cpu_read_word s (RAM_SIZE - 1) = 0xFFFF ∧
    cpu_write_word s (RAM_SIZE - 1) v = s := by
  have hn : ¬ RAM_SIZE ≤ a + 1 := by omega
  have htop : RAM_SIZE ≤ (RAM_SIZE - 1) + 1 := by
    simp only [RAM_SIZE]
    omega
  refine ⟨?_, ?_, ?_, ?_, ?_, ?_⟩
  · unfold cpu_read_word
    rw [if_neg hn]
  · unfold cpu_write_word
    rw [if_neg hn]
    simp
  · unfold cpu_write_word
    rw [if_neg hn]
    have hne : ¬ (a + 1 = a) := by omega
    simp [hne]
  · intro b hb1 hb2
    unfold cpu_write_word
    rw [if_neg hn]
    simp [hb1, hb2]
  · unfold cpu_read_word
    rw [if_pos htop]
  · unfold cpu_write_word
    rw [if_pos htop]

/-- Witness for the C1 amended theorem at address 0x10 and value
0x1234. -/
theorem mem_word_access_spec_witness :
    (0x10 : Nat) + 1 < RAM_SIZE ∧
    (cpu_read_word exC1w 0x10 = exC1w.ram 0x10 + 256 * exC1w.ram (0x10 + 1) ∧
     (cpu_write_word exC1w 0x10 0x1234).ram 0x10 = 0x1234 % 256 ∧
     (cpu_write_word exC1w 0x10 0x1234).ram (0x10 + 1) = 0x1234 / 256 % 256 ∧
     (∀ b, b ≠ 0x10 → b ≠ 0x10 + 1 →
        (cpu_write_word exC1w 0x10 0x1234).ram b = exC1w.ram b) ∧
     cpu_read_word exC1w (RAM_SIZE - 1) = 0xFFFF ∧
     cpu_write_word exC1w (RAM_SIZE - 1) 0x1234 = exC1w) :=
  ⟨by decide, mem_word_access_spec exC1w 0x10 0x1234 (by decide)⟩

/-- C2: LEA r16, m (opcode 0x8D, ModR/M 0x00, length 1 + 1 = 2 bytes)
advances IP by modrm.length = 1 only, from 0x100 to 0x101, not by the
full instruction length 2: the opcode byte is missing from the IP
arithmetic of lea (and likewise lds, les and mov_seg). -/
theorem lea_ip_advance_bug :
    doOpCase 0x8D = DispatchCase.leaCase ∧
    (decode_modrm exC2 (cpu_get_pc exC2 + 1)).length = 1 ∧
    exC2.ip = 0x100 ∧
    (lea exC2).ip = 0x101 ∧
    (0x101 : Nat) ≠ 0x102 := by
  decide

/-- C3: MOVSB with an active ES segment override (seg_override = 1)
still reads its source from DS:SI.  In exC3 the byte at phys(DS,SI) is
0x42 and the byte at the override source phys(ES,SI) is 0x99; the byte
stored at the destination ES:DI = 0x20010 is 0x42, so the override was
ignored for the DS:SI operand. -/
theorem movs_ignores_override_bug :
    exC3.seg_override = 1 ∧
    (movs exC3).ram 0x20010 = 0x42 ∧
    exC3.ram (cpu_calc_addr exC3.es exC3.si) = 0x99 ∧
    (0x42 : Nat) ≠ 0x99 := by
  decide

/-- C6: with FLAGS = 0, LAHF stores AH = FLAGS & 0xD7 = 0x00; bit 1 of
AH is not forced to 1 (the claim and the x86 architecture require
AH = 0x02 here). -/
theorem lahf_bit1_not_forced :
    exC6.flags = 0 ∧
    (lahf exC6).ax / 256 % 256 = 0x00 ∧
    (0x00 : Nat) ≠ 0x02 := by
  decide

/-- C7: opcode 0xD6 is not a prefix and carries no case label in the
do_op switch, so it selects the default branch, which halts the CPU
and leaves AL and IP unchanged, while the (never invoked) salc handler
would have set AL to 0xFF since CF is set in exC7. -/
theorem salc_not_dispatched :
    isPrefixByte 0xD6 = false ∧
    doOpCase 0xD6 = DispatchCase.undefCase ∧
    cpu_read_byte exC7 (cpu_get_pc exC7) = 0xD6 ∧
    (doOpUndef exC7).running = 0 ∧
    (doOpUndef exC7).ax = exC7.ax ∧
    (doOpUndef exC7).ip = exC7.ip ∧
    (salc exC7).ax % 256 = 0xFF := by
  decide

/-- C8 (counterexample): with SS = 0xF000 and SP = 1 the pushed word
lands at physical address 0xFFFFF, where the word write is discarded,
so the following POP returns 0xFFFF, not the pushed value 0x1234 (SP
is still restored). -/
theorem push_pop_top_of_memory_cex :
    cpu_calc_addr exC8.ss ((exC8.sp + 65534) % 65536) = 0xFFFFF ∧
    (pop_word (push_word exC8 0x1234)).1 = 0xFFFF ∧
    (0xFFFF : Nat) ≠ 0x1234 ∧
    (pop_word (push_word exC8 0x1234)).2.sp = exC8.sp := by
  decide

/-- C8 (amended): PUSH then POP recovers the pushed 16-bit value and
restores SP, provided the pushed word's physical address
phys(SS, SP - 2) is not the last byte of memory (where the write
would be discarded). -/
theorem push_pop_roundtrip (s : X86Cpu) (v : Nat) (hwf : Wf s)
    (hv : v < 65536)
    (haddr : cpu_calc_addr s.ss ((s.sp + 65534) % 65536) + 1 < RAM_SIZE) :
    (pop_word (push_word s v)).1 = v ∧
    (pop_word (push_word s v)).2.sp = s.sp := by
  obtain ⟨hram, hax, hbx, hcx, hdx, hsp, hrest⟩ := hwf
  have h1 : cpu_calc_addr s.ss ((s.sp + 65534) % 65536) + 1 ≠
      cpu_calc_addr s.ss ((s.sp + 65534) % 65536) := by omega
  have hpush : push_word s v =
      cpu_write_word { s with sp := (s.sp + 65534) % 65536 }
        (cpu_calc_addr s.ss ((s.sp + 65534) % 65536)) v := rfl
  rw [hpush, cpu_write_word_in _ _ _ haddr]
  simp only [pop_word]
  rw [cpu_read_word_in _ _ haddr]
  simp only [if_true, if_neg h1]
  constructor
  · omega
  · omega

/-- Witness for the C8 amended theorem on an ordinary stack. -/
theorem push_pop_roundtrip_witness :
    Wf exC8w ∧ (0x1234 : Nat) < 65536 ∧
    cpu_calc_addr exC8w.ss ((exC8w.sp + 65534) % 65536) + 1 < RAM_SIZE ∧
    ((pop_word (push_word exC8w 0x1234)).1 = 0x1234 ∧
     (pop_word (push_word exC8w 0x1234)).2.sp = exC8w.sp) :=
  ⟨wf_exC8w, by decide, by decide,
   push_pop_roundtrip exC8w 0x1234 wf_exC8w (by decide) (by decide)⟩

/-- C10: POPF replaces FLAGS with the word read at SS:SP verbatim (no
bit is masked or forced), increments SP by 2 and IP by 1, and changes
nothing else; IRET pops IP, CS and FLAGS in that order, assigning the
third popped word to FLAGS verbatim. -/
theorem popf_iret_flags_verbatim (s : X86Cpu) :
    (popf s).flags = cpu_read_word s (cpu_calc_addr s.ss s.sp) ∧
    (popf s).sp = (s.sp + 2) % 65536 ∧
    (popf s).ip = (s.ip + 1) % 65536 ∧
    (popf s).ram = s.ram ∧ (popf s).ax = s.ax ∧ (popf s).cs = s.cs ∧
    (popf s).ss = s.ss ∧
    (iret s).ip = cpu_read_word s (cpu_calc_addr s.ss s.sp) ∧
    (iret s).cs = cpu_read_word s (cpu_calc_addr s.ss ((s.sp + 2) % 65536)) ∧
    (iret s).flags = cpu_read_word s (cpu_calc_addr s.ss ((s.sp + 4) % 65536)) ∧
    (iret s).sp = (s.sp + 6) % 65536 ∧
    (iret s).ram = s.ram ∧ (iret s).ax = s.ax ∧ (iret s).ss = s.ss := by
  have h4 : ((s.sp + 2) % 65536 + 2) % 65536 = (s.sp + 4) % 65536 := by omega
  have h6 : (((s.sp + 2) % 65536 + 2) % 65536 + 2) % 65536 =
      (s.sp + 6) % 65536 := by omega
  refine ⟨rfl, rfl, rfl, rfl, rfl, rfl, rfl, rfl, rfl, ?_, ?_, rfl, rfl, rfl⟩
  · show cpu_read_word s
        (cpu_calc_addr s.ss (((s.sp + 2) % 65536 + 2) % 65536)) =
        cpu_read_word s (cpu_calc_addr s.ss ((s.sp + 4) % 65536))
    rw [h4]
  · show (((s.sp + 2) % 65536 + 2) % 65536 + 2) % 65536 = (s.sp + 6) % 65536
    exact h6

/-- C9: DAA first performs the low-nibble adjust (AL += 6 and AF set
exactly when (AL & 0x0F) > 9 or AF was set, AF cleared otherwise),
then the high adjust (AL += 0x60 and CF set exactly when the
pre-adjust AL exceeded 0x99 or CF was set, CF cleared otherwise), then
sets ZF, SF and PF from the final AL, advances IP by 1, and changes
nothing else.  al0, al1 and al2 name the original AL, the AL after the
low adjust, and the final AL. -/
theorem daa_spec (s : X86Cpu) (al0 al1 al2 : Nat)
    (h0 : al0 = s.ax % 256)
    (h1 : al1 = if 9 < (al0 &&& 0x0F) ∨ s.flags &&& FLAGS_AF ≠ 0
                then (al0 + 6) % 256 else al0)
    (h2 : al2 = if 0x99 < al0 ∨ s.flags &&& FLAGS_CF ≠ 0
                then (al1 + 0x60) % 256 else al1) :
    (daa s).ax % 256 = al2 ∧
    (daa s).ax / 256 % 256 = s.ax / 256 % 256 ∧
    ((daa s).flags.testBit 4 = true ↔
      (9 < (al0 &&& 0x0F) ∨ s.flags &&& FLAGS_AF ≠ 0)) ∧
    ((daa s).flags.testBit 0 = true ↔
      (0x99 < al0 ∨ s.flags &&& FLAGS_CF ≠ 0)) ∧
    (daa s).flags.testBit 6 = (al2 == 0) ∧
    (daa s).flags.testBit 7 = al2.testBit 7 ∧
    (daa s).flags.testBit 2 = parity8 al2 ∧
    (daa s).ip = (s.ip + 1) % 65536 ∧
    (daa s).ram = s.ram ∧ (daa s).bx = s.bx ∧ (daa s).cx = s.cx ∧
    (daa s).dx = s.dx ∧ (daa s).sp = s.sp ∧ (daa s).bp = s.bp ∧
    (daa s).si = s.si ∧ (daa s).di = s.di ∧ (daa s).cs = s.cs ∧
    (daa s).ds = s.ds ∧ (daa s).ss = s.ss ∧ (daa s).es = s.es ∧
    (daa s).seg_override = s.seg_override ∧
    (daa s).rep_pfx = s.rep_pfx ∧ (daa s).running = s.running := by
  have hlt0 : al0 < 256 := by
    rw [h0]
    omega
  have hlt1 : al1 < 256 := by
    rw [h1]
    split_ifs <;> omega
  have hlt2 : al2 < 256 := by
    rw [h2]
    split_ifs <;> omega
  have hA : al2 &&& 0xFF = al2 := by
    have h : al2 &&& 0xFF = al2 % 256 := Nat.and_pow_two_sub_one_eq_mod al2 8
    omega
  simp only [daa, ite_fst, ite_snd]
  rw [← h0, ← h1, ← h2]
  simp only [true_and, and_true]
  refine ⟨?_, ?_, ?_, ?_, ?_, ?_, ?_⟩
  · unfold withL
    omega
  · unfold withL
    omega
  · rw [szp_testBit_other _ al2 true 4 (by omega) (by omega) (by omega)
      (by omega)]
    split_ifs with hc2 hc1 hc1
    · rw [testBit_set_flag_ne _ FLAGS_CF 0 4 FLAGS_CF_eq (by omega),
        testBit_set_flag_self _ FLAGS_AF 4 FLAGS_AF_eq]
      simp [hc1]
    · rw [testBit_set_flag_ne _ FLAGS_CF 0 4 FLAGS_CF_eq (by omega),
        testBit_clear_flag_self _ FLAGS_AF 4 FLAGS_AF_eq (by omega)]
      simp [hc1]
    · rw [testBit_clear_flag_ne _ FLAGS_CF 0 4 FLAGS_CF_eq (by omega)
        (by omega),
        testBit_set_flag_self _ FLAGS_AF 4 FLAGS_AF_eq]
      simp [hc1]
    · rw [testBit_clear_flag_ne _ FLAGS_CF 0 4 FLAGS_CF_eq (by omega)
        (by omega),
        testBit_clear_flag_self _ FLAGS_AF 4 FLAGS_AF_eq (by omega)]
      simp [hc1]
  · rw [szp_testBit_other _ al2 true 0 (by omega) (by omega) (by omega)
      (by omega)]
    split_ifs with hc2 hc1 hc1
    · rw [testBit_set_flag_self _ FLAGS_CF 0 FLAGS_CF_eq]
      simp [hc2]
    · rw [testBit_set_flag_self _ FLAGS_CF 0 FLAGS_CF_eq]
      simp [hc2]
    · rw [testBit_clear_flag_self _ FLAGS_CF 0 FLAGS_CF_eq (by omega)]
      simp [hc2]
    · rw [testBit_clear_flag_self _ FLAGS_CF 0 FLAGS_CF_eq (by omega)]
      simp [hc2]
  · rw [szp_testBit_6_byte, hA]
  · rw [szp_testBit_7_byte]
  · rw [szp_testBit_2]

/-- Witness for C9: DAA on AL = 0x9A with clear flags takes both
adjusts, giving AL = 0 with AF set. -/
theorem daa_spec_witness :
    (daa exC9w).ax % 256 = 0 ∧
    ((daa exC9w).flags.testBit 4 = true ↔
      (9 < ((0x9A : Nat) &&& 0x0F) ∨ exC9w.flags &&& FLAGS_AF ≠ 0)) := by
  have h := daa_spec exC9w 0x9A 0xA0 0x00 (by decide) (by decide) (by decide)
  exact ⟨h.1, h.2.2.1⟩

theorem cpu_read_byte_lt (s : X86Cpu) (hram : ∀ a, s.ram a < 256)
    (addr : Nat) : cpu_read_byte s addr < 256 := by
  unfold cpu_read_byte
  split
  · omega
  · exact hram addr

theorem get_reg8_lt (s : X86Cpu) (r : Nat) : get_reg8 s r < 256 := by
  unfold get_reg8
  split_ifs <;> omega

theorem cpu_read_word_lt (s : X86Cpu) (hram : ∀ a, s.ram a < 256)
    (addr : Nat) : cpu_read_word s addr < 65536 := by
  unfold cpu_read_word
  split
  · omega
  · have h1 := hram addr
    have h2 := hram (addr + 1)
    omega

theorem get_reg16_lt (s : X86Cpu) (hwf : Wf s) (r : Nat) :
    get_reg16 s r < 65536 := by
  obtain ⟨hram, hax, hbx, hcx, hdx, hsp, hbp, hsi, hdi, hrest⟩ := hwf
  unfold get_reg16
  split_ifs <;> omega

/-- C4: Grp3 DIV (reg field 6).  With a byte operand (opcode 0xF6),
divisor zero or quotient above 0xFF halts the CPU with every register,
IP, FLAGS and all memory unchanged; otherwise AL receives AX / v and
AH receives AX mod v (the ax field becomes 256 * (AX mod v) + AX / v),
IP advances past the instruction, and the flags are untouched.  With a
word operand (opcode 0xF7) the same holds with DX:AX, 0xFFFF, AX and
DX. -/
theorem grp3_div_spec (s : X86Cpu) (hwf : Wf s) :
    (∀ v,
      cpu_read_byte s (cpu_get_pc s) = 0xF6 →
      (decode_modrm s (cpu_get_pc s + 1)).reg = 6 →
      v = (if (decode_modrm s (cpu_get_pc s + 1)).is_memory
           then cpu_read_byte s (decode_modrm s (cpu_get_pc s + 1)).ea
           else get_reg8 s (decode_modrm s (cpu_get_pc s + 1)).rm) →
      ((v = 0 ∨ 0xFF < s.ax / v) → grp3 s = { s with running := 0 }) ∧
      (v ≠ 0 → s.ax / v ≤ 0xFF →
        grp3 s = { s with
          ax := 256 * (s.ax % v) + s.ax / v,
          ip := (s.ip + 1 +
            (decode_modrm s (cpu_get_pc s + 1)).length) % 65536 })) ∧
    (∀ v,
      cpu_read_byte s (cpu_get_pc s) = 0xF7 →
      (decode_modrm s (cpu_get_pc s + 1)).reg = 6 →
      v = (if (decode_modrm s (cpu_get_pc s + 1)).is_memory
           then cpu_read_word s (decode_modrm s (cpu_get_pc s + 1)).ea
           else get_reg16 s (decode_modrm s (cpu_get_pc s + 1)).rm) →
      ((v = 0 ∨ 0xFFFF < (65536 * s.dx + s.ax) / v) →
        grp3 s = { s with running := 0 }) ∧
      (v ≠ 0 → (65536 * s.dx + s.ax) / v ≤ 0xFFFF →
        grp3 s = { s with
          ax := (65536 * s.dx + s.ax) / v,
          dx := (65536 * s.dx + s.ax) % v,
          ip := (s.ip + 1 +
            (decode_modrm s (cpu_get_pc s + 1)).length) % 65536 })) := by
  have hram : ∀ a, s.ram a < 256 := hwf.1
  constructor
  · intro v hop hreg hv
    have hvlt : v < 256 := by
      rw [hv]
      split
      · exact cpu_read_byte_lt s hram _
      · exact get_reg8_lt s _
    constructor
    · intro hd
      by_cases h0 : v = 0
      · simp only [grp3, hop, hreg, ← hv, h0, Nat.reduceBEq,
          Bool.false_eq_true, if_false, eq_self_iff_true, if_true]
      · have hq : 0xFF < s.ax / v := by
          rcases hd with h | h
          · exact absurd h h0
          · exact h
        simp only [grp3, hop, hreg, ← hv, Nat.reduceBEq,
          Bool.false_eq_true, if_false, eq_self_iff_true, if_true]
        rw [if_neg (by simpa using h0), if_pos hq]
    · intro hne hle
      have hr : s.ax % v < v := Nat.mod_lt _ (Nat.pos_of_ne_zero hne)
      have haxeq : withH (withL s.ax (s.ax / v)) (s.ax % v) =
          256 * (s.ax % v) + s.ax / v := by
        unfold withH withL
        generalize hq : s.ax / v = q at hle ⊢
        generalize hrr : s.ax % v = r at hr ⊢
        omega
      simp only [grp3, hop, hreg, ← hv, Nat.reduceBEq,
          Bool.false_eq_true, if_false, eq_self_iff_true, if_true]
      rw [if_neg (by simpa using hne), if_neg (by omega), haxeq]
  · intro v hop hreg hv
    have hvlt : v < 65536 := by
      rw [hv]
      split
      · exact cpu_read_word_lt s hram _
      · exact get_reg16_lt s hwf _
    constructor
    · intro hd
      by_cases h0 : v = 0
      · simp only [grp3, hop, hreg, ← hv, h0, Nat.reduceBEq,
          Bool.false_eq_true, if_false, eq_self_iff_true, if_true]
      · have hq : 0xFFFF < (65536 * s.dx + s.ax) / v := by
          rcases hd with h | h
          · exact absurd h h0
          · exact h
        simp only [grp3, hop, hreg, ← hv, Nat.reduceBEq,
          Bool.false_eq_true, if_false, eq_self_iff_true, if_true]
        rw [if_neg (by simpa using h0), if_pos hq]
    · intro hne hle
      have hr : (65536 * s.dx + s.ax) % v < v :=
        Nat.mod_lt _ (Nat.pos_of_ne_zero hne)
      have haxeq : (65536 * s.dx + s.ax) / v % 65536 =
          (65536 * s.dx + s.ax) / v := by
        generalize hq : (65536 * s.dx + s.ax) / v = q at hle ⊢
        omega
      have hdxeq : (65536 * s.dx + s.ax) % v % 65536 =
          (65536 * s.dx + s.ax) % v := by
        generalize hrr : (65536 * s.dx + s.ax) % v = r at hr ⊢
        omega
      simp only [grp3, hop, hreg, ← hv, Nat.reduceBEq,
          Bool.false_eq_true, if_false, eq_self_iff_true, if_true]
      rw [if_neg (by simpa using hne), if_neg (by omega), haxeq, hdxeq]

/-- Witness for C4: byte DIV (encoding F6 F6, register operand DH)
with DH = 0 halts the CPU and leaves the state otherwise unchanged. -/
theorem grp3_div_spec_witness :
    cpu_read_byte exC4 (cpu_get_pc exC4) = 0xF6 ∧
    (decode_modrm exC4 (cpu_get_pc exC4 + 1)).reg = 6 ∧
    grp3 exC4 = { exC4 with running := 0 } := by
  have h := (grp3_div_spec exC4 wf_exC4).1 0 (by decide) (by decide) (by decide)
  exact ⟨by decide, by decide, h.1 (Or.inl rfl)⟩

/-- C5 (counterexample): ROR AL, 1 on AL = 1 gives result 0x80 with
CF = 1 and OF = 1, but the claim's formula for rotates, OF =
MSB(result) xor CF, gives 1 xor 1 = 0: the claim is false for ROR. -/
theorem ror_of_formula_cex :
    (decode_modrm exC5 (cpu_get_pc exC5 + 1)).reg = 1 ∧
    ((if cpu_read_byte exC5 (cpu_get_pc exC5) &&& 0x2 ≠ 0
       then exC5.cx % 256 else 1) &&& 0x1F) = 1 ∧
    (shift_rotate_op exC5).ax % 256 = 0x80 ∧
    (shift_rotate_op exC5).flags.testBit 0 = true ∧
    (shift_rotate_op exC5).flags.testBit 11 = true ∧
    (shift_rotate_op exC5).flags.testBit 11 ≠
      xor (((shift_rotate_op exC5).ax % 256).testBit 7)
        ((shift_rotate_op exC5).flags.testBit 0) := by
  decide

theorem prop_ne_bool {P Q : Prop} {a b : Bool}
    (ha : P ↔ a = true) (hb : Q ↔ b = true) :
    (P ≠ Q) ↔ (a ≠ b) := by
  constructor
  · intro h hab
    apply h
    apply propext
    rw [ha, hb, hab]
  · intro h he
    apply h
    have hiff : a = true ↔ b = true := by rw [← ha, ← hb, he]
    cases a <;> cases b <;> simp_all

/-- Bit 11 of the count=1 OF adjust used by ROL, RCL and SHL: it
equals the xor of the result's top bit with the resulting CF (bit 0 of
the adjusted flags). -/
theorem of_adjust_msb_xor_cf (r f k : Nat) (P Q : Prop)
    [Decidable P] [Decidable Q]
    (hP : P ↔ r.testBit k = true) (hQ : Q ↔ f.testBit 0 = true) :
    (if P ≠ Q then set_flag f FLAGS_OV else clear_flag f FLAGS_OV).testBit 11 =
      xor (r.testBit k)
        ((if P ≠ Q then set_flag f FLAGS_OV
          else clear_flag f FLAGS_OV).testBit 0) := by
  have hb0 : (if P ≠ Q then set_flag f FLAGS_OV
      else clear_flag f FLAGS_OV).testBit 0 = f.testBit 0 := by
    by_cases h : P ≠ Q
    · rw [if_pos h, testBit_set_flag_ne _ FLAGS_OV 11 0 FLAGS_OV_eq (by omega)]
    · rw [if_neg h,
        testBit_clear_flag_ne _ FLAGS_OV 11 0 FLAGS_OV_eq (by omega) (by omega)]
  rw [hb0]
  by_cases h : P ≠ Q
  · rw [if_pos h, testBit_set_flag_self _ _ 11 FLAGS_OV_eq]
    have hne := (prop_ne_bool hP hQ).mp h
    cases h7 : r.testBit k <;> cases h0 : f.testBit 0 <;> simp_all
  · rw [if_neg h, testBit_clear_flag_self _ _ 11 FLAGS_OV_eq (by omega)]
    have heq : ¬ (r.testBit k ≠ f.testBit 0) := fun hne =>
      h ((prop_ne_bool hP hQ).mpr hne)
    cases h7 : r.testBit k <;> cases h0 : f.testBit 0 <;> simp_all

/-- Bit 11 of the count=1 OF adjust used by ROR and RCR: it equals the
xor of the result's two top bits. -/
theorem of_adjust_msb_pair (r f k k2 : Nat) (P Q : Prop)
    [Decidable P] [Decidable Q]
    (hP : P ↔ r.testBit k = true) (hQ : Q ↔ r.testBit k2 = true) :
    (if P ≠ Q then set_flag f FLAGS_OV else clear_flag f FLAGS_OV).testBit 11 =
      xor (r.testBit k) (r.testBit k2) := by
  by_cases h : P ≠ Q
  · rw [if_pos h, testBit_set_flag_self _ _ 11 FLAGS_OV_eq]
    have hne := (prop_ne_bool hP hQ).mp h
    cases h7 : r.testBit k <;> cases h0 : r.testBit k2 <;> simp_all
  · rw [if_neg h, testBit_clear_flag_self _ _ 11 FLAGS_OV_eq (by omega)]
    have heq : ¬ (r.testBit k ≠ r.testBit k2) := fun hne =>
      h ((prop_ne_bool hP hQ).mpr hne)
    cases h7 : r.testBit k <;> cases h0 : r.testBit k2 <;> simp_all

/-- Bit 11 of the count=1 OF adjust used by SHR: it equals the given
bit of the pre-shift value. -/
theorem of_adjust_value_msb (vv f k : Nat) (P : Prop) [Decidable P]
    (hP : P ↔ vv.testBit k = true) :
    (if P then set_flag f FLAGS_OV
     else clear_flag f FLAGS_OV).testBit 11 = vv.testBit k := by
  by_cases h : P
  · rw [if_pos h, testBit_set_flag_self _ _ 11 FLAGS_OV_eq]
    exact (hP.mp h).symm
  · rw [if_neg h, testBit_clear_flag_self _ _ 11 FLAGS_OV_eq (by omega)]
    have : ¬ vv.testBit k = true := fun hb => h (hP.mpr hb)
    simp_all


/-- Bit 0 (CF) of the flags chain used by the SHL/SHR/SAR arms of
shift_rotate_op: CF is written first from the loop's carry, then
ZF/SF/PF and the AF clear leave bit 0 unchanged. -/
theorem szp_chain_bit0 (fl r : Nat) (b c : Bool) :
    (clear_flag (update_flags_szp
        (if c then set_flag fl FLAGS_CF else clear_flag fl FLAGS_CF) r b)
      FLAGS_AF).testBit 0 = c := by
  rw [testBit_clear_flag_ne _ FLAGS_AF 4 0 FLAGS_AF_eq (by omega) (by omega),
      szp_testBit_other _ _ _ 0 (by omega) (by omega) (by omega) (by omega)]
  cases c
  · rw [if_neg (by simp), testBit_clear_flag_self _ _ 0 FLAGS_CF_eq (by omega)]
  · rw [if_pos rfl, testBit_set_flag_self _ _ 0 FLAGS_CF_eq]

set_option maxHeartbeats 1000000 in
/-- C5 (amended): for a Grp2 shift or rotate executed with count 1,
the resulting OF (FLAGS bit 11) is: for ROL, RCL and SHL, the MSB of
the result xor the resulting CF; for ROR and RCR, the MSB of the
result xor the next-most-significant bit of the result; for SHR, the
MSB of the pre-shift value; for SAR, 0.  Here v is the fetched operand
value, w the MSB index for the operand width, and the results are the
values computed by the corresponding one-iteration loops (which are
also what is written back to the operand). -/
theorem shift_rotate_count1_of_spec (s : X86Cpu) (op v w : Nat)
    (hopc : cpu_read_byte s (cpu_get_pc s) = op)
    (hrange : op = 0xD0 ∨ op = 0xD1 ∨ op = 0xD2 ∨ op = 0xD3)
    (hcount : ((if op &&& 0x2 ≠ 0 then s.cx % 256 else 1) &&& 0x1F) = 1)
    (hv : v = (if (op &&& 0x1 == 0 : Bool) then
                 (if (decode_modrm s (cpu_get_pc s + 1)).is_memory
                  then cpu_read_byte s (decode_modrm s (cpu_get_pc s + 1)).ea
                  else get_reg8 s (decode_modrm s (cpu_get_pc s + 1)).rm)
               else
                 (if (decode_modrm s (cpu_get_pc s + 1)).is_memory
                  then cpu_read_word s (decode_modrm s (cpu_get_pc s + 1)).ea
                  else get_reg16 s (decode_modrm s (cpu_get_pc s + 1)).rm)))
    (hw : w = if (op &&& 0x1 == 0 : Bool) then 7 else 15) :
    ((decode_modrm s (cpu_get_pc s + 1)).reg = 0 →
      (shift_rotate_op s).flags.testBit 11 =
        xor ((rol_loop (op &&& 0x1 == 0) 1 v s.flags).1.testBit w)
          ((shift_rotate_op s).flags.testBit 0)) ∧
    ((decode_modrm s (cpu_get_pc s + 1)).reg = 1 →
      (shift_rotate_op s).flags.testBit 11 =
        xor ((ror_loop (op &&& 0x1 == 0) 1 v s.flags).1.testBit w)
          ((ror_loop (op &&& 0x1 == 0) 1 v s.flags).1.testBit (w - 1))) ∧
    ((decode_modrm s (cpu_get_pc s + 1)).reg = 2 →
      (shift_rotate_op s).flags.testBit 11 =
        xor ((rcl_loop (op &&& 0x1 == 0) 1 v
              (decide (s.flags &&& FLAGS_CF ≠ 0)) s.flags).1.testBit w)
          ((shift_rotate_op s).flags.testBit 0)) ∧
    ((decode_modrm s (cpu_get_pc s + 1)).reg = 3 →
      (shift_rotate_op s).flags.testBit 11 =
        xor ((rcr_loop (op &&& 0x1 == 0) 1 v
              (decide (s.flags &&& FLAGS_CF ≠ 0)) s.flags).1.testBit w)
          ((rcr_loop (op &&& 0x1 == 0) 1 v
              (decide (s.flags &&& FLAGS_CF ≠ 0)) s.flags).1.testBit (w - 1))) ∧
    (((decode_modrm s (cpu_get_pc s + 1)).reg = 4 ∨
      (decode_modrm s (cpu_get_pc s + 1)).reg = 6) →
      (shift_rotate_op s).flags.testBit 11 =
        xor ((shl_loop (op &&& 0x1 == 0) 1 v false).1.testBit w)
          ((shift_rotate_op s).flags.testBit 0)) ∧
    ((decode_modrm s (cpu_get_pc s + 1)).reg = 5 →
      (shift_rotate_op s).flags.testBit 11 = v.testBit w) ∧
    ((decode_modrm s (cpu_get_pc s + 1)).reg = 7 →
      (shift_rotate_op s).flags.testBit 11 = false) := by
  rcases hrange with h | h | h | h
  · subst h
    have hb : ((0xD0 : Nat) &&& 0x1 == 0 : Bool) = true := by decide
    have hc2 : ((0xD0 : Nat) &&& 0x2) = 0 := by decide
    have h31 : ((1 : Nat) &&& 0x1F) = 1 := by decide
    simp only [hb, eq_self_iff_true, if_true] at hv hw
    subst hw
    refine ⟨?_, ?_, ?_, ?_, ?_, ?_, ?_⟩
    · intro hreg
      simp only [shift_rotate_op, hopc, hreg, hb, hc2, h31, if_true,
        eq_self_iff_true, ne_eq, not_true, if_false, beq_self_eq_true,
        Nat.reduceBEq, Bool.false_eq_true, Bool.true_or, Bool.false_or,
        Bool.or_false, Nat.zero_lt_one, not_false_eq_true, ite_snd, ← hv]
      apply of_adjust_msb_xor_cf
      · rw [show (0x80 : Nat) = 2 ^ 7 from rfl]
        exact and_two_pow_ne_zero_iff _ 7
      · rw [FLAGS_CF_eq]
        exact and_two_pow_ne_zero_iff _ 0
    · intro hreg
      simp only [shift_rotate_op, hopc, hreg, hb, hc2, h31, if_true,
        eq_self_iff_true, ne_eq, not_true, if_false, beq_self_eq_true,
        Nat.reduceBEq, Bool.false_eq_true, Bool.true_or, Bool.false_or,
        Bool.or_false, Nat.zero_lt_one, not_false_eq_true, ite_snd, ← hv]
      apply of_adjust_msb_pair
      · rw [show (0x80 : Nat) = 2 ^ 7 from rfl]
        exact and_two_pow_ne_zero_iff _ 7
      · rw [show (0x40 : Nat) = 2 ^ (7 - 1) from rfl]
        exact and_two_pow_ne_zero_iff _ (7 - 1)
    · intro hreg
      simp only [shift_rotate_op, hopc, hreg, hb, hc2, h31, if_true,
        eq_self_iff_true, ne_eq, not_true, if_false, beq_self_eq_true,
        Nat.reduceBEq, Bool.false_eq_true, Bool.true_or, Bool.false_or,
        Bool.or_false, Nat.zero_lt_one, not_false_eq_true, ite_snd, ← hv]
      apply of_adjust_msb_xor_cf
      · rw [show (0x80 : Nat) = 2 ^ 7 from rfl]
        exact and_two_pow_ne_zero_iff _ 7
      · rw [FLAGS_CF_eq]
        exact and_two_pow_ne_zero_iff _ 0
    · intro hreg
      simp only [shift_rotate_op, hopc, hreg, hb, hc2, h31, if_true,
        eq_self_iff_true, ne_eq, not_true, if_false, beq_self_eq_true,
        Nat.reduceBEq, Bool.false_eq_true, Bool.true_or, Bool.false_or,
        Bool.or_false, Nat.zero_lt_one, not_false_eq_true, ite_snd, ← hv]
      apply of_adjust_msb_pair
      · rw [show (0x80 : Nat) = 2 ^ 7 from rfl]
        exact and_two_pow_ne_zero_iff _ 7
      · rw [show (0x40 : Nat) = 2 ^ (7 - 1) from rfl]
        exact and_two_pow_ne_zero_iff _ (7 - 1)
    · intro hreg
      rcases hreg with hreg | hreg
      · simp only [shift_rotate_op, hopc, hreg, hb, hc2, h31, if_true,
          eq_self_iff_true, ne_eq, not_true, if_false, beq_self_eq_true,
          Nat.reduceBEq, Bool.false_eq_true, Bool.true_or, Bool.false_or,
          Bool.or_false, Nat.zero_lt_one, not_false_eq_true, ite_snd, ← hv]
        apply of_adjust_msb_xor_cf
        · rw [show (0x80 : Nat) = 2 ^ 7 from rfl]
          exact and_two_pow_ne_zero_iff _ 7
        · rw [szp_chain_bit0]
      · simp only [shift_rotate_op, hopc, hreg, hb, hc2, h31, if_true,
          eq_self_iff_true, ne_eq, not_true, if_false, beq_self_eq_true,
          Nat.reduceBEq, Bool.false_eq_true, Bool.true_or, Bool.false_or,
          Bool.or_false, Nat.zero_lt_one, not_false_eq_true, ite_snd, ← hv]
        apply of_adjust_msb_xor_cf
        · rw [show (0x80 : Nat) = 2 ^ 7 from rfl]
          exact and_two_pow_ne_zero_iff _ 7
        · rw [szp_chain_bit0]
    · intro hreg
      simp only [shift_rotate_op, hopc, hreg, hb, hc2, h31, if_true,
        eq_self_iff_true, ne_eq, not_true, if_false, beq_self_eq_true,
        Nat.reduceBEq, Bool.false_eq_true, Bool.true_or, Bool.false_or,
        Bool.or_false, Nat.zero_lt_one, not_false_eq_true, ite_snd, ← hv]
      apply of_adjust_value_msb
      rw [show (0x80 : Nat) = 2 ^ 7 from rfl]
      exact and_two_pow_ne_zero_iff _ 7
    · intro hreg
      simp only [shift_rotate_op, hopc, hreg, hb, hc2, h31, if_true,
        eq_self_iff_true, ne_eq, not_true, if_false, beq_self_eq_true,
        Nat.reduceBEq, Bool.false_eq_true, Bool.true_or, Bool.false_or,
        Bool.or_false, Nat.zero_lt_one, not_false_eq_true, ite_snd, ← hv]
      exact testBit_clear_flag_self _ _ 11 FLAGS_OV_eq (by omega)
  · subst h
    have hbf : ((0xD1 : Nat) &&& 0x1 == 0 : Bool) = false := by decide
    have hc2 : ((0xD1 : Nat) &&& 0x2) = 0 := by decide
    have h31 : ((1 : Nat) &&& 0x1F) = 1 := by decide
    simp only [hbf, Bool.false_eq_true, if_false] at hv hw
    subst hw
    refine ⟨?_, ?_, ?_, ?_, ?_, ?_, ?_⟩
    · intro hreg
      simp only [shift_rotate_op, hopc, hreg, hbf, hc2, h31, if_true,
        eq_self_iff_true, ne_eq, not_true, if_false, beq_self_eq_true,
        Nat.reduceBEq, Bool.false_eq_true, Bool.true_or, Bool.false_or,
        Bool.or_false, Nat.zero_lt_one, not_false_eq_true, ite_snd, ← hv]
      apply of_adjust_msb_xor_cf
      · rw [show (0x8000 : Nat) = 2 ^ 15 from rfl]
        exact and_two_pow_ne_zero_iff _ 15
      · rw [FLAGS_CF_eq]
        exact and_two_pow_ne_zero_iff _ 0
    · intro hreg
      simp only [shift_rotate_op, hopc, hreg, hbf, hc2, h31, if_true,
        eq_self_iff_true, ne_eq, not_true, if_false, beq_self_eq_true,
        Nat.reduceBEq, Bool.false_eq_true, Bool.true_or, Bool.false_or,
        Bool.or_false, Nat.zero_lt_one, not_false_eq_true, ite_snd, ← hv]
      apply of_adjust_msb_pair
      · rw [show (0x8000 : Nat) = 2 ^ 15 from rfl]
        exact and_two_pow_ne_zero_iff _ 15
      · rw [show (0x4000 : Nat) = 2 ^ (15 - 1) from rfl]
        exact and_two_pow_ne_zero_iff _ (15 - 1)
    · intro hreg
      simp only [shift_rotate_op, hopc, hreg, hbf, hc2, h31, if_true,
        eq_self_iff_true, ne_eq, not_true, if_false, beq_self_eq_true,
        Nat.reduceBEq, Bool.false_eq_true, Bool.true_or, Bool.false_or,
        Bool.or_false, Nat.zero_lt_one, not_false_eq_true, ite_snd, ← hv]
      apply of_adjust_msb_xor_cf
      · rw [show (0x8000 : Nat) = 2 ^ 15 from rfl]
        exact and_two_pow_ne_zero_iff _ 15
      · rw [FLAGS_CF_eq]
        exact and_two_pow_ne_zero_iff _ 0
    · intro hreg
      simp only [shift_rotate_op, hopc, hreg, hbf, hc2, h31, if_true,
        eq_self_iff_true, ne_eq, not_true, if_false, beq_self_eq_true,
        Nat.reduceBEq, Bool.false_eq_true, Bool.true_or, Bool.false_or,
        Bool.or_false, Nat.zero_lt_one, not_false_eq_true, ite_snd, ← hv]
      apply of_adjust_msb_pair
      · rw [show (0x8000 : Nat) = 2 ^ 15 from rfl]
        exact and_two_pow_ne_zero_iff _ 15
      · rw [show (0x4000 : Nat) = 2 ^ (15 - 1) from rfl]
        exact and_two_pow_ne_zero_iff _ (15 - 1)
    · intro hreg
      rcases hreg with hreg | hreg
      · simp only [shift_rotate_op, hopc, hreg, hbf, hc2, h31, if_true,
          eq_self_iff_true, ne_eq, not_true, if_false, beq_self_eq_true,
          Nat.reduceBEq, Bool.false_eq_true, Bool.true_or, Bool.false_or,
          Bool.or_false, Nat.zero_lt_one, not_false_eq_true, ite_snd, ← hv]
        apply of_adjust_msb_xor_cf
        · rw [show (0x8000 : Nat) = 2 ^ 15 from rfl]
          exact and_two_pow_ne_zero_iff _ 15
        · rw [szp_chain_bit0]
      · simp only [shift_rotate_op, hopc, hreg, hbf, hc2, h31, if_true,
          eq_self_iff_true, ne_eq, not_true, if_false, beq_self_eq_true,
          Nat.reduceBEq, Bool.false_eq_true, Bool.true_or, Bool.false_or,
          Bool.or_false, Nat.zero_lt_one, not_false_eq_true, ite_snd, ← hv]
        apply of_adjust_msb_xor_cf
        · rw [show (0x8000 : Nat) = 2 ^ 15 from rfl]
          exact and_two_pow_ne_zero_iff _ 15
        · rw [szp_chain_bit0]
    · intro hreg
      simp only [shift_rotate_op, hopc, hreg, hbf, hc2, h31, if_true,
        eq_self_iff_true, ne_eq, not_true, if_false, beq_self_eq_true,
        Nat.reduceBEq, Bool.false_eq_true, Bool.true_or, Bool.false_or,
        Bool.or_false, Nat.zero_lt_one, not_false_eq_true, ite_snd, ← hv]
      apply of_adjust_value_msb
      rw [show (0x8000 : Nat) = 2 ^ 15 from rfl]
      exact and_two_pow_ne_zero_iff _ 15
    · intro hreg
      simp only [shift_rotate_op, hopc, hreg, hbf, hc2, h31, if_true,
        eq_self_iff_true, ne_eq, not_true, if_false, beq_self_eq_true,
        Nat.reduceBEq, Bool.false_eq_true, Bool.true_or, Bool.false_or,
        Bool.or_false, Nat.zero_lt_one, not_false_eq_true, ite_snd, ← hv]
      exact testBit_clear_flag_self _ _ 11 FLAGS_OV_eq (by omega)
  · subst h
    have hb : ((0xD2 : Nat) &&& 0x1 == 0 : Bool) = true := by decide
    have hne : ((0xD2 : Nat) &&& 0x2) ≠ 0 := by decide
    simp only [hb, eq_self_iff_true, if_true] at hv hw
    subst hw
    rw [if_pos hne] at hcount
    refine ⟨?_, ?_, ?_, ?_, ?_, ?_, ?_⟩
    · intro hreg
      simp only [shift_rotate_op, hopc, hreg, hb, hne, hcount, if_true,
        eq_self_iff_true, ne_eq, not_true, if_false, beq_self_eq_true,
        Nat.reduceBEq, Bool.false_eq_true, Bool.true_or, Bool.false_or,
        Bool.or_false, Nat.zero_lt_one, not_false_eq_true, ite_snd, ← hv]
      apply of_adjust_msb_xor_cf
      · rw [show (0x80 : Nat) = 2 ^ 7 from rfl]
        exact and_two_pow_ne_zero_iff _ 7
      · rw [FLAGS_CF_eq]
        exact and_two_pow_ne_zero_iff _ 0
    · intro hreg
      simp only [shift_rotate_op, hopc, hreg, hb, hne, hcount, if_true,
        eq_self_iff_true, ne_eq, not_true, if_false, beq_self_eq_true,
        Nat.reduceBEq, Bool.false_eq_true, Bool.true_or, Bool.false_or,
        Bool.or_false, Nat.zero_lt_one, not_false_eq_true, ite_snd, ← hv]
      apply of_adjust_msb_pair
      · rw [show (0x80 : Nat) = 2 ^ 7 from rfl]
        exact and_two_pow_ne_zero_iff _ 7
      · rw [show (0x40 : Nat) = 2 ^ (7 - 1) from rfl]
        exact and_two_pow_ne_zero_iff _ (7 - 1)
    · intro hreg
      simp only [shift_rotate_op, hopc, hreg, hb, hne, hcount, if_true,
        eq_self_iff_true, ne_eq, not_true, if_false, beq_self_eq_true,
        Nat.reduceBEq, Bool.false_eq_true, Bool.true_or, Bool.false_or,
        Bool.or_false, Nat.zero_lt_one, not_false_eq_true, ite_snd, ← hv]
      apply of_adjust_msb_xor_cf
      · rw [show (0x80 : Nat) = 2 ^ 7 from rfl]
        exact and_two_pow_ne_zero_iff _ 7
      · rw [FLAGS_CF_eq]
        exact and_two_pow_ne_zero_iff _ 0
    · intro hreg
      simp only [shift_rotate_op, hopc, hreg, hb, hne, hcount, if_true,
        eq_self_iff_true, ne_eq, not_true, if_false, beq_self_eq_true,
        Nat.reduceBEq, Bool.false_eq_true, Bool.true_or, Bool.false_or,
        Bool.or_false, Nat.zero_lt_one, not_false_eq_true, ite_snd, ← hv]
      apply of_adjust_msb_pair
      · rw [show (0x80 : Nat) = 2 ^ 7 from rfl]
        exact and_two_pow_ne_zero_iff _ 7
      · rw [show (0x40 : Nat) = 2 ^ (7 - 1) from rfl]
        exact and_two_pow_ne_zero_iff _ (7 - 1)
    · intro hreg
      rcases hreg with hreg | hreg
      · simp only [shift_rotate_op, hopc, hreg, hb, hne, hcount, if_true,
          eq_self_iff_true, ne_eq, not_true, if_false, beq_self_eq_true,
          Nat.reduceBEq, Bool.false_eq_true, Bool.true_or, Bool.false_or,
          Bool.or_false, Nat.zero_lt_one, not_false_eq_true, ite_snd, ← hv]
        apply of_adjust_msb_xor_cf
        · rw [show (0x80 : Nat) = 2 ^ 7 from rfl]
          exact and_two_pow_ne_zero_iff _ 7
        · rw [szp_chain_bit0]
      · simp only [shift_rotate_op, hopc, hreg, hb, hne, hcount, if_true,
          eq_self_iff_true, ne_eq, not_true, if_false, beq_self_eq_true,
          Nat.reduceBEq, Bool.false_eq_true, Bool.true_or, Bool.false_or,
          Bool.or_false, Nat.zero_lt_one, not_false_eq_true, ite_snd, ← hv]
        apply of_adjust_msb_xor_cf
        · rw [show (0x80 : Nat) = 2 ^ 7 from rfl]
          exact and_two_pow_ne_zero_iff _ 7
        · rw [szp_chain_bit0]
    · intro hreg
      simp only [shift_rotate_op, hopc, hreg, hb, hne, hcount, if_true,
        eq_self_iff_true, ne_eq, not_true, if_false, beq_self_eq_true,
        Nat.reduceBEq, Bool.false_eq_true, Bool.true_or, Bool.false_or,
        Bool.or_false, Nat.zero_lt_one, not_false_eq_true, ite_snd, ← hv]
      apply of_adjust_value_msb
      rw [show (0x80 : Nat) = 2 ^ 7 from rfl]
      exact and_two_pow_ne_zero_iff _ 7
    · intro hreg
      simp only [shift_rotate_op, hopc, hreg, hb, hne, hcount, if_true,
        eq_self_iff_true, ne_eq, not_true, if_false, beq_self_eq_true,
        Nat.reduceBEq, Bool.false_eq_true, Bool.true_or, Bool.false_or,
        Bool.or_false, Nat.zero_lt_one, not_false_eq_true, ite_snd, ← hv]
      exact testBit_clear_flag_self _ _ 11 FLAGS_OV_eq (by omega)
  · subst h
    have hbf : ((0xD3 : Nat) &&& 0x1 == 0 : Bool) = false := by decide
    have hne : ((0xD3 : Nat) &&& 0x2) ≠ 0 := by decide
    simp only [hbf, Bool.false_eq_true, if_false] at hv hw
    subst hw
    rw [if_pos hne] at hcount
    refine ⟨?_, ?_, ?_, ?_, ?_, ?_, ?_⟩
    · intro hreg
      simp only [shift_rotate_op, hopc, hreg, hbf, hne, hcount, if_true,
        eq_self_iff_true, ne_eq, not_true, if_false, beq_self_eq_true,
        Nat.reduceBEq, Bool.false_eq_true, Bool.true_or, Bool.false_or,
        Bool.or_false, Nat.zero_lt_one, not_false_eq_true, ite_snd, ← hv]
      apply of_adjust_msb_xor_cf
      · rw [show (0x8000 : Nat) = 2 ^ 15 from rfl]
        exact and_two_pow_ne_zero_iff _ 15
      · rw [FLAGS_CF_eq]
        exact and_two_pow_ne_zero_iff _ 0
    · intro hreg
      simp only [shift_rotate_op, hopc, hreg, hbf, hne, hcount, if_true,
        eq_self_iff_true, ne_eq, not_true, if_false, beq_self_eq_true,
        Nat.reduceBEq, Bool.false_eq_true, Bool.true_or, Bool.false_or,
        Bool.or_false, Nat.zero_lt_one, not_false_eq_true, ite_snd, ← hv]
      apply of_adjust_msb_pair
      · rw [show (0x8000 : Nat) = 2 ^ 15 from rfl]
        exact and_two_pow_ne_zero_iff _ 15
      · rw [show (0x4000 : Nat) = 2 ^ (15 - 1) from rfl]
        exact and_two_pow_ne_zero_iff _ (15 - 1)
    · intro hreg
      simp only [shift_rotate_op, hopc, hreg, hbf, hne, hcount, if_true,
        eq_self_iff_true, ne_eq, not_true, if_false, beq_self_eq_true,
        Nat.reduceBEq, Bool.false_eq_true, Bool.true_or, Bool.false_or,
        Bool.or_false, Nat.zero_lt_one, not_false_eq_true, ite_snd, ← hv]
      apply of_adjust_msb_xor_cf
      · rw [show (0x8000 : Nat) = 2 ^ 15 from rfl]
        exact and_two_pow_ne_zero_iff _ 15
      · rw [FLAGS_CF_eq]
        exact and_two_pow_ne_zero_iff _ 0
    · intro hreg
      simp only [shift_rotate_op, hopc, hreg, hbf, hne, hcount, if_true,
        eq_self_iff_true, ne_eq, not_true, if_false, beq_self_eq_true,
        Nat.reduceBEq, Bool.false_eq_true, Bool.true_or, Bool.false_or,
        Bool.or_false, Nat.zero_lt_one, not_false_eq_true, ite_snd, ← hv]
      apply of_adjust_msb_pair
      · rw [show (0x8000 : Nat) = 2 ^ 15 from rfl]
        exact and_two_pow_ne_zero_iff _ 15
      · rw [show (0x4000 : Nat) = 2 ^ (15 - 1) from rfl]
        exact and_two_pow_ne_zero_iff _ (15 - 1)
    · intro hreg
      rcases hreg with hreg | hreg
      · simp only [shift_rotate_op, hopc, hreg, hbf, hne, hcount, if_true,
          eq_self_iff_true, ne_eq, not_true, if_false, beq_self_eq_true,
          Nat.reduceBEq, Bool.false_eq_true, Bool.true_or, Bool.false_or,
          Bool.or_false, Nat.zero_lt_one, not_false_eq_true, ite_snd, ← hv]
        apply of_adjust_msb_xor_cf
        · rw [show (0x8000 : Nat) = 2 ^ 15 from rfl]
          exact and_two_pow_ne_zero_iff _ 15
        · rw [szp_chain_bit0]
      · simp only [shift_rotate_op, hopc, hreg, hbf, hne, hcount, if_true,
          eq_self_iff_true, ne_eq, not_true, if_false, beq_self_eq_true,
          Nat.reduceBEq, Bool.false_eq_true, Bool.true_or, Bool.false_or,
          Bool.or_false, Nat.zero_lt_one, not_false_eq_true, ite_snd, ← hv]
        apply of_adjust_msb_xor_cf
        · rw [show (0x8000 : Nat) = 2 ^ 15 from rfl]
          exact and_two_pow_ne_zero_iff _ 15
        · rw [szp_chain_bit0]
    · intro hreg
      simp only [shift_rotate_op, hopc, hreg, hbf, hne, hcount, if_true,
        eq_self_iff_true, ne_eq, not_true, if_false, beq_self_eq_true,
        Nat.reduceBEq, Bool.false_eq_true, Bool.true_or, Bool.false_or,
        Bool.or_false, Nat.zero_lt_one, not_false_eq_true, ite_snd, ← hv]
      apply of_adjust_value_msb
      rw [show (0x8000 : Nat) = 2 ^ 15 from rfl]
      exact and_two_pow_ne_zero_iff _ 15
    · intro hreg
      simp only [shift_rotate_op, hopc, hreg, hbf, hne, hcount, if_true,
        eq_self_iff_true, ne_eq, not_true, if_false, beq_self_eq_true,
        Nat.reduceBEq, Bool.false_eq_true, Bool.true_or, Bool.false_or,
        Bool.or_false, Nat.zero_lt_one, not_false_eq_true, ite_snd, ← hv]
      exact testBit_clear_flag_self _ _ 11 FLAGS_OV_eq (by omega)

/-- Witness for C5: ROL AL,1 (encoding D0 C0) on AL = 0x81 satisfies
the amended OF relation at a concrete state. -/
theorem shift_rotate_count1_of_spec_witness :
    cpu_read_byte exC5w (cpu_get_pc exC5w) = 0xD0 ∧
    (decode_modrm exC5w (cpu_get_pc exC5w + 1)).reg = 0 ∧
    (shift_rotate_op exC5w).flags.testBit 11 =
      xor ((rol_loop ((0xD0 : Nat) &&& 0x1 == 0) 1 0x81 exC5w.flags).1.testBit 7)
        ((shift_rotate_op exC5w).flags.testBit 0) := by
  have h := (shift_rotate_count1_of_spec exC5w 0xD0 0x81 7 (by decide)
      (Or.inl rfl) (by decide) (by decide) (by decide)).1 (by decide)
  exact ⟨by decide, by decide, h⟩

end Acorn
